import Mathlib

/-!
Verification development for the Introjucer project-save orchestrator
(`extras/Introjucer/Source/Project Saving/jucer_ProjectSaver.h`).

The C++ class `ProjectSaver` is shallowly embedded: its mutable fields
(`project` file location, `errors`, `generatedFilesGroup`) become an explicit
state record threaded through pure step functions; file-system outcomes
(directory creation, stable writes) become environment parameters; the
generated-files group becomes a list of absolute file paths (one per leaf
`Project::Item`).  Text renderers (`writeAppConfig`, `writeAppHeader`) become
pure functions producing the list of output lines.
-/

/-! ## Generated-files group (Generated-Tree Manager)

The group is modelled as the list of absolute paths of its leaf items, in
insertion order.  `Project::Item` values returned by lookups are modelled as
`Option String`: `some path` is a valid item for that path, `none` is the
invalid item (`Project::Item (project, ValueTree::invalid)`). -/

/-- Modelled from the spec: `Project::Item::findItemForFile` (declared outside
this repository slice) looks an item up by its absolute file path; lookups by
absolute path find the item whose path equals the argument. -/
def findItemForFile (group : List String) (file : String) : Option String :=
  group.find? (fun p => p == file)

/-- Modelled from the spec: `Project::Item::addFile` (declared outside this
repository slice) appends a new leaf item for the given file to the group. -/
def addFile (group : List String) (file : String) : List String :=
  group ++ [file]

/-- `ProjectSaver::addFileToGeneratedGroup`: look the file up in the generated
group; if no valid item exists, add the file and look it up again.  Returns the
item and the updated group. -/
def addFileToGeneratedGroup (group : List String) (file : String) :
    Option String × List String :=
  match findItemForFile group file with
  | some item => (some item, group)
  | none =>
      let g := addFile group file
      (findItemForFile g file, g)

/-- The group after `addFileToGeneratedGroup` (second component). -/
def addFileToGeneratedGroupL (group : List String) (file : String) : List String :=
  (addFileToGeneratedGroup group file).2

/-! ## Folder pruning (`deleteNonHiddenFilesIn`)

A directory's contents are modelled as a tree of named entries. -/

inductive FSEntry where
  | file (name : String)
  | dir (name : String) (children : List FSEntry)
deriving Repr

/-- `ProjectSaver::shouldFileBeKept`: the fixed keep-list. -/
def shouldFileBeKept (filename : String) : Bool :=
  filename == ".svn" || filename == ".cvs" || filename == "CMakeLists.txt"

/-- Name of an entry. -/
def FSEntry.name : FSEntry → String
  | .file n => n
  | .dir n _ => n

/-- `ProjectSaver::deleteNonHiddenFilesIn`, as a pure function on the list of
entries of the parent folder: returns the entries that remain after the
deletion pass together with the C++ function's `folderIsNowEmpty` result.
A kept-named entry stays untouched and makes the folder non-empty; a non-kept
sub-folder is recursively pruned and is deleted exactly when its own recursive
call reported it empty; a non-kept file is deleted. -/
def deleteNonHiddenFilesIn : List FSEntry → List FSEntry × Bool
  | [] => ([], true)
  | FSEntry.file n :: rest =>
      let r := deleteNonHiddenFilesIn rest
      if shouldFileBeKept n then (FSEntry.file n :: r.1, false) else r
  | FSEntry.dir n cs :: rest =>
      let r := deleteNonHiddenFilesIn rest
      if shouldFileBeKept n then (FSEntry.dir n cs :: r.1, false)
      else
        let c := deleteNonHiddenFilesIn cs
        if c.2 then r else (FSEntry.dir n c.1 :: r.1, false)

mutual

/-- Does this entry carry a kept name, or contain one at any depth? -/
def containsKeptEntry : FSEntry → Bool
  | .file n => shouldFileBeKept n
  | .dir n cs => shouldFileBeKept n || containsKeptIn cs

/-- Does any entry of the list contain a kept name at any depth? -/
def containsKeptIn : List FSEntry → Bool
  | [] => false
  | e :: rest => containsKeptEntry e || containsKeptIn rest

end

/-- What remains of a single entry after the deletion pass over its parent:
kept-named entries survive untouched, non-kept directories survive (pruned)
exactly when they contain a kept entry somewhere, non-kept files are deleted. -/
def pruneEntry : FSEntry → Option FSEntry
  | .file n => if shouldFileBeKept n then some (.file n) else none
  | .dir n cs =>
      if shouldFileBeKept n then some (.dir n cs)
      else if containsKeptIn cs then some (.dir n (deleteNonHiddenFilesIn cs).1)
      else none

/-! ## Config/Header Emitter

`OutputStream` text is modelled as the list of output lines: every `newLine`
ends the current line, and both renderers end their output with `newLine`.
The full byte content of the stream is `String.intercalate "\n" lines ++ "\n"`.  -/

/-- One of the three states of a configuration flag
(`Project::configFlagEnabled`, `Project::configFlagDisabled`, unset/default). -/
inductive FlagValue where
  | enabled
  | disabled
  | unset
deriving Repr, DecidableEq

/-- A resolved library module, as the renderers see it.
Modelled from the spec: the module metadata format is external; a module has an
ID, exposes configuration flags in a declared order (`getConfigFlags`), and
contributes its own include statements (`writeIncludes`). -/
structure LibraryModule where
  id : String
  configFlags : List String
  includeLines : List String
deriving Repr, DecidableEq

/-- The slice of the `Project` entity read during a save.  `fileLocation` is
the mutable current-file attribute (`getFile`/`setFile`); the renderers do not
read it. -/
structure Project where
  projectUID : String
  configFlag : String → FlagValue
  projectName : String
  version : String
  versionAsHex : Int
  appConfigFilename : String
  juceSourceHFilename : String
  fileLocation : String

/-- `String::repeatedString`: the string repeated `n` times (a non-positive
repeat count produces the empty string, matching truncated subtraction). -/
def repeatedString (s : String) : Nat → String
  | 0 => ""
  | Nat.succ n => s ++ repeatedString s n

/-- `ProjectSaver::findLongestModuleName`: greatest module-ID length. -/
def findLongestModuleName (modules : List LibraryModule) : Nat :=
  modules.foldr (fun m acc => max acc m.id.length) 0

/-- One `#define JUCE_MODULE_AVAILABLE_<ID>` line, space-padded to the longest
module name plus five, then ` 1`. -/
def moduleAvailableLine (longestName : Nat) (m : LibraryModule) : String :=
  "#define JUCE_MODULE_AVAILABLE_" ++ m.id
    ++ repeatedString " " (longestName + 5 - m.id.length) ++ " 1"

/-- The single line rendered for one configuration flag symbol. -/
def flagLine (p : Project) (symbol : String) : String :=
  match p.configFlag symbol with
  | .enabled => "#define    " ++ symbol ++ " 1"
  | .disabled => "#define    " ++ symbol ++ " 0"
  | .unset => "//#define  " ++ symbol

/-- `ProjectSaver::writeAutoGenWarningComment`. -/
def autoGenWarningLines : List String :=
  ["/*",
   "",
   "    IMPORTANT! This file is auto-generated each time you save your",
   "    project - if you alter its contents, your changes may be overwritten!",
   ""]

/-- Include guard of the generated config header. -/
def appConfigHeaderGuard (p : Project) : String :=
  "__JUCE_APPCONFIG_" ++ p.projectUID.toUpper ++ "__"

/-- The banner line `//====...====` (two slashes then 78 equals signs), as the
source emits it. -/
def bannerLine : String :=
  "//" ++ String.mk (List.replicate 78 '=')

/-- Everything `writeAppConfig` emits before the module-availability block. -/
def configPreambleLines (p : Project) : List String :=
  autoGenWarningLines ++
  ["    If you want to change any of these values, use the Introjucer to do so,",
   "    rather than editing this file directly!",
   "",
   "    Any commented-out settings will assume their default values.",
   "",
   "*/",
   "",
   "#ifndef " ++ appConfigHeaderGuard p,
   "#define " ++ appConfigHeaderGuard p,
   "",
   bannerLine]

/-- The per-module flag block: a banner, a `// <ID> flags:` comment, a blank
line, one line per exposed flag in declared order; all of it only when the
module exposes at least one flag; a separating blank line after every module
except the one at the last index. -/
def moduleFlagBlock (p : Project) (m : LibraryModule) (isLast : Bool) : List String :=
  if m.configFlags.isEmpty then []
  else
    [bannerLine,
     "// " ++ m.id ++ " flags:",
     ""] ++ m.configFlags.map (flagLine p)
      ++ (if isLast then [] else [""])

/-- All per-module flag blocks, in module order. -/
def configFlagBlocks (p : Project) (modules : List LibraryModule) : List String :=
  (modules.enum.map
    (fun jm => moduleFlagBlock p jm.2 (jm.1 == modules.length - 1))).flatten

/-- Lines contributed by `extraAppConfigContent`: nothing when it is empty,
otherwise a blank line followed by the trimmed content. -/
def extraConfigLines (extraAppConfigContent : String) : List String :=
  if extraAppConfigContent.isEmpty then []
  else "" :: extraAppConfigContent.trimRight.splitOn "\n"

/-- `ProjectSaver::writeAppConfig`, as the list of emitted lines. -/
def writeAppConfigLines (p : Project) (modules : List LibraryModule)
    (extraAppConfigContent : String) : List String :=
  configPreambleLines p ++
  modules.map (moduleAvailableLine (findLongestModuleName modules)) ++
  [""] ++
  configFlagBlocks p modules ++
  extraConfigLines extraAppConfigContent ++
  ["", "#endif  // " ++ appConfigHeaderGuard p]

/-- Full byte content of the rendered config header. -/
def writeAppConfigText (p : Project) (modules : List LibraryModule)
    (extraAppConfigContent : String) : String :=
  String.intercalate "\n" (writeAppConfigLines p modules extraAppConfigContent) ++ "\n"

/-- Modelled from the spec: `CodeHelpers::createIncludeStatement` (declared
outside this repository slice) emits an include directive naming the generated
file. -/
def createIncludeStatement (filename : String) : String :=
  "#include \"" ++ filename ++ "\""

/-- Modelled from the spec: `CodeHelpers::addEscapeChars` (declared outside
this repository slice) escapes backslashes and quotes so the name can stand in
a C string literal; `String::quoted` wraps it in quotes. -/
def addEscapeCharsQuoted (s : String) : String :=
  "\"" ++ (s.replace "\\" "\\\\").replace "\"" "\\\"" ++ "\""

/-- Include guard of the umbrella header. -/
def appHeaderGuard (p : Project) : String :=
  "__APPHEADERFILE_" ++ p.projectUID.toUpper ++ "__"

/-- `ProjectSaver::writeAppHeader` (stream overload), as the list of emitted
lines.  `appConfigFileExists` and `binaryDataCppExists` model the two
file-existence tests. -/
def writeAppHeaderLines (p : Project) (modules : List LibraryModule)
    (appConfigFileExists : Bool) (binaryDataCppExists : Bool) : List String :=
  autoGenWarningLines ++
  ["    This is the header file that your files should include in order to get all the",
   "    JUCE library headers. You should avoid including the JUCE headers directly in",
   "    your own source files, because that wouldn\x27t pick up the correct configuration",
   "    options for your app.",
   "",
   "*/",
   "",
   "#ifndef " ++ appHeaderGuard p,
   "#define " ++ appHeaderGuard p,
   ""] ++
  (if appConfigFileExists then [createIncludeStatement p.appConfigFilename] else []) ++
  (modules.map LibraryModule.includeLines).flatten ++
  (if binaryDataCppExists then [createIncludeStatement "BinaryData.h"] else []) ++
  ["",
   "#if ! DONT_SET_USING_JUCE_NAMESPACE",
   " // If your code uses a lot of JUCE classes, then this will obviously save you",
   " // a lot of typing, but can be disabled by setting DONT_SET_USING_JUCE_NAMESPACE.",
   " using namespace juce;",
   "#endif",
   "",
   "namespace ProjectInfo",
   "\x7b",
   "    const char* const  projectName    = " ++ addEscapeCharsQuoted p.projectName ++ ";",
   "    const char* const  versionString  = " ++ addEscapeCharsQuoted p.version ++ ";",
   "    const int          versionNumber  = " ++ toString p.versionAsHex ++ ";",
   "\x7d",
   "",
   "#endif   // " ++ appHeaderGuard p]

/-- Full byte content of the rendered umbrella header. -/
def writeAppHeaderText (p : Project) (modules : List LibraryModule)
    (appConfigFileExists : Bool) (binaryDataCppExists : Bool) : String :=
  String.intercalate "\n"
    (writeAppHeaderLines p modules appConfigFileExists binaryDataCppExists) ++ "\n"

/-! ## Save Orchestrator

The orchestrator's mutable state and its environment.  `disk` is the set of
files currently existing on disk (as a duplicate-free list), `written` the log
of files successfully written during this save call.  `visited` records the
exporter indices in the order the exporter loop processes them; `handedLog`
records, for every exporter whose target directory was created, its index and
the generated-files group handed to `ProjectExporter::create`. -/

/-- One exporter specification, with the environment-determined outcomes of its
target-directory creation and of `create()` (`some message` models a thrown
`ProjectExporter::SaveError`). -/
structure ExporterSpec where
  name : String
  targetFolder : String
  dirCreateOk : Bool
  addedFiles : List String
  createError : Option String
deriving Repr, DecidableEq

/-- The constructor arguments of `ProjectSaver`: the target project file and
the generated-code folder, plus the project-supplied generated filenames. -/
structure SaveConfig where
  targetProjectFile : String
  generatedCodeFolder : String
  appConfigFilename : String
  juceSourceHFilename : String
deriving Repr, DecidableEq

/-- Environment: the outcome of every file-system operation and external
collaborator during one save call. -/
structure SaveEnv where
  descriptorWriteOk : Bool
  generatedFolderCreateOk : Bool
  appConfigWriteOk : Bool
  resourceNumFiles : Nat
  resourceWriteOk : Bool
  appHeaderWriteOk : Bool
  exporters : List ExporterSpec
  generatedFolderExists : Bool
  readmeWriteOk : Bool
deriving Repr, DecidableEq

/-- The mutable state of one `ProjectSaver` run. -/
structure SaverState where
  projectFileLoc : String
  errors : List String
  group : List String
  disk : List String
  written : List String
  visited : List Nat
  handedLog : List (Nat × List String)
deriving Repr, DecidableEq

/-- `generatedCodeFolder.getChildFile (name)`. -/
def childFile (cfg : SaveConfig) (filename : String) : String :=
  cfg.generatedCodeFolder ++ "/" ++ filename

/-- Put a file on disk (the disk is a set of paths). -/
def insertFile (f : String) (disk : List String) : List String :=
  if f ∈ disk then disk else disk ++ [f]

/-- `ProjectSaver::replaceFileIfDifferent`: the Stable File Writer either
succeeds (file now on disk, logged as written) or fails and appends one error. -/
def replaceFileIfDifferent (f : String) (ok : Bool) (st : SaverState) :
    Bool × SaverState :=
  if ok then
    (true, { st with disk := insertFile f st.disk, written := st.written ++ [f] })
  else
    (false, { st with errors := st.errors ++ ["Can\x27t write to file: " ++ f] })

/-- `ProjectSaver::saveGeneratedFile`: create the generated-code folder (one
error on failure), stable-write the file, and on success register it in the
generated group. -/
def saveGeneratedFile (cfg : SaveConfig) (env : SaveEnv) (filePath : String)
    (writeOk : Bool) (st : SaverState) : Option String × SaverState :=
  if !env.generatedFolderCreateOk then
    (none, { st with errors :=
      st.errors ++ ["Couldn\x27t create folder: " ++ cfg.generatedCodeFolder] })
  else
    let file := childFile cfg filePath
    let r := replaceFileIfDifferent file writeOk st
    if r.1 then
      let ag := addFileToGeneratedGroup r.2.group file
      (ag.1, { r.2 with group := ag.2 })
    else
      (none, r.2)

/-- `ProjectSaver::writeMainProjectFile`: stable-write the serialized project
descriptor at the target project path. -/
def writeMainProjectFile (cfg : SaveConfig) (env : SaveEnv) (st : SaverState) :
    SaverState :=
  (replaceFileIfDifferent cfg.targetProjectFile env.descriptorWriteOk st).2

/-- `ProjectSaver::writeAppConfigFile`. -/
def writeAppConfigFile (cfg : SaveConfig) (env : SaveEnv) (st : SaverState) :
    SaverState :=
  (saveGeneratedFile cfg env cfg.appConfigFilename env.appConfigWriteOk st).2

/-- Path of the generated `BinaryData.cpp`. -/
def binaryDataCppPath (cfg : SaveConfig) : String :=
  childFile cfg "BinaryData.cpp"

/-- Path of the generated `BinaryData.h`. -/
def binaryDataHPath (cfg : SaveConfig) : String :=
  childFile cfg "BinaryData.h"

/-- `ProjectSaver::writeBinaryDataFiles`: with at least one resource, the
Resource Packer writes the pair and both files are added (directly) to the
group, or one error is appended; with no resources both files are deleted. -/
def writeBinaryDataFiles (cfg : SaveConfig) (env : SaveEnv) (st : SaverState) :
    SaverState :=
  if env.resourceNumFiles > 0 then
    if env.resourceWriteOk then
      { st with
          disk := insertFile (binaryDataHPath cfg)
                    (insertFile (binaryDataCppPath cfg) st.disk),
          written := st.written ++ [binaryDataCppPath cfg, binaryDataHPath cfg],
          group := addFile (addFile st.group (binaryDataCppPath cfg))
                    (binaryDataHPath cfg) }
    else
      { st with errors := st.errors ++
          ["Can\x27t create binary resources file: " ++ binaryDataCppPath cfg] }
  else
    { st with disk :=
        st.disk.filter (fun f => !(f == binaryDataCppPath cfg || f == binaryDataHPath cfg)) }

/-- `ProjectSaver::writeAppHeader` (file-writing overload). -/
def writeAppHeaderFile (cfg : SaveConfig) (env : SaveEnv) (st : SaverState) :
    SaverState :=
  (saveGeneratedFile cfg env cfg.juceSourceHFilename env.appHeaderWriteOk st).2

/-- `ProjectSaver::sortGroupRecursively`: alphabetical, case-insensitive.  On
the flat path-list model the recursion over sub-groups is the one sort. -/
def sortGroupRecursively (g : List String) : List String :=
  g.mergeSort (fun a b => decide (a.toLower ≤ b.toLower))

/-- One iteration of the exporter loop body, at exporter index `i`:
record the visit; if the target directory can be created, reset the group to
the snapshot, apply the exporter's generated-group additions, sort, hand the
group over (logged), and run `create()` whose failure appends one error;
otherwise append one folder-creation error. -/
def stepExporter (snapshot : List String) (exps : List ExporterSpec) (i : Nat)
    (st : SaverState) : SaverState :=
  match exps[i]? with
  | none => st
  | some e =>
      let st1 := { st with visited := st.visited ++ [i] }
      if e.dirCreateOk then
        let g1 := e.addedFiles.foldl addFileToGeneratedGroupL snapshot
        let g2 := sortGroupRecursively g1
        { st1 with
            group := g2,
            handedLog := st1.handedLog ++ [(i, g2)],
            errors := st1.errors ++
              (match e.createError with
               | some m => [m]
               | none => []) }
      else
        { st1 with errors :=
            st1.errors ++ ["Can\x27t create folder: " ++ e.targetFolder] }

/-- The exporter loop `for (int i = getNumExporters(); --i >= 0;)`: counts
down, so index `n-1` is processed first and index `0` last. -/
def writeProjectsAux (snapshot : List String) (exps : List ExporterSpec) :
    Nat → SaverState → SaverState
  | 0, st => st
  | Nat.succ i, st => writeProjectsAux snapshot exps i (stepExporter snapshot exps i st)

/-- `ProjectSaver::writeProjects`: snapshot the generated group, then run the
countdown loop over all exporters. -/
def writeProjects (env : SaveEnv) (st : SaverState) : SaverState :=
  writeProjectsAux st.group env.exporters env.exporters.length st

/-- `ProjectSaver::writeReadmeFile`: stable-write `ReadMe.txt` into the
generated-code folder (never registered in the generated group). -/
def writeReadmeFile (cfg : SaveConfig) (env : SaveEnv) (st : SaverState) :
    SaverState :=
  (replaceFileIfDifferent (childFile cfg "ReadMe.txt") env.readmeWriteOk st).2

/-- The stages of `save()` from the binary-data step onward: binary data,
umbrella header, exporters, config header again, README — each gated on
"no errors yet". -/
def savePipelineFromBinary (cfg : SaveConfig) (env : SaveEnv) (st3 : SaverState) :
    SaverState :=
  let st4 := if st3.errors.length = 0 then writeBinaryDataFiles cfg env st3 else st3
  let st5 := if st4.errors.length = 0 then writeAppHeaderFile cfg env st4 else st4
  let st6 := if st5.errors.length = 0 then writeProjects env st5 else st5
  let st7 := if st6.errors.length = 0 then writeAppConfigFile cfg env st6 else st6
  if env.generatedFolderExists && st7.errors.length = 0
  then writeReadmeFile cfg env st7 else st7

/-- The body of `save()` between setting the new project file location and the
final error check: descriptor, config header, then the remaining stages —
every stage after the first gated on "no errors yet". -/
def savePipeline (cfg : SaveConfig) (env : SaveEnv) (st1 : SaverState) :
    SaverState :=
  let st2 := writeMainProjectFile cfg env st1
  let st3 := if st2.errors.length = 0 then writeAppConfigFile cfg env st2 else st2
  savePipelineFromBinary cfg env st3

/-- `ProjectSaver::save`: the orchestrator.  Remembers the old project file
location, sets the new one, runs the pipeline, restores the old location if
any error was recorded, and returns `errors[0]` (the empty string when no
error was recorded) together with the final state. -/
def save (cfg : SaveConfig) (env : SaveEnv) (st0 : SaverState) :
    String × SaverState :=
  let oldFile := st0.projectFileLoc
  let st8 := savePipeline cfg env { st0 with projectFileLoc := cfg.targetProjectFile }
  let st9 := if st8.errors.length > 0 then { st8 with projectFileLoc := oldFile } else st8
  (st9.errors.headD "", st9)

/-- The assertion at the top of `save()`:
`jassert (generatedFilesGroup.getNumChildren() == 0)`. -/
def savePrecondition (st : SaverState) : Prop :=
  st.group.length = 0

/-- The saver state right after the `ProjectSaver` constructor: a freshly
created, empty generated group (the constructor's on-disk pruning of the
generated-code folder is modelled separately by `deleteNonHiddenFilesIn`). -/
def initialSaverState (projectLoc : String) (disk : List String) : SaverState :=
  { projectFileLoc := projectLoc, errors := [], group := [], disk := disk,
    written := [], visited := [], handedLog := [] }

/-! ## Concrete sample instances used by witnesses and counterexamples -/

/-- A well-behaved exporter with target folder `folder<i>`. -/
def sampleExporter (i : Nat) : ExporterSpec :=
  { name := "exporter", targetFolder := "folder" ++ toString i,
    dirCreateOk := true, addedFiles := [], createError := none }

/-- A sample saver configuration. -/
def sampleCfg : SaveConfig :=
  { targetProjectFile := "proj.jucer", generatedCodeFolder := "gen",
    appConfigFilename := "AppConfig.h", juceSourceHFilename := "JuceHeader.h" }

/-- All file-system operations succeed; three well-behaved exporters. -/
def sampleEnvThree : SaveEnv :=
  { descriptorWriteOk := true, generatedFolderCreateOk := true,
    appConfigWriteOk := true, resourceNumFiles := 0, resourceWriteOk := true,
    appHeaderWriteOk := true,
    exporters := [sampleExporter 0, sampleExporter 1, sampleExporter 2],
    generatedFolderExists := false, readmeWriteOk := true }

/-- An exporter that contributes one generated file. -/
def sampleAdderExporter : ExporterSpec :=
  { name := "adder", targetFolder := "folderA", dirCreateOk := true,
    addedFiles := ["gen/X.cpp"], createError := none }

/-- Environment for the isolation witness: the adder runs first (it sits at the
last declared index), the plain exporter afterwards. -/
def sampleEnvIsolation : SaveEnv :=
  { descriptorWriteOk := true, generatedFolderCreateOk := true,
    appConfigWriteOk := true, resourceNumFiles := 0, resourceWriteOk := true,
    appHeaderWriteOk := true,
    exporters := [sampleExporter 0, sampleAdderExporter],
    generatedFolderExists := false, readmeWriteOk := true }

/-- Environment for the README/group observation: one binary resource, no
exporters, the generated folder exists at README time. -/
def sampleEnvReadme : SaveEnv :=
  { descriptorWriteOk := true, generatedFolderCreateOk := true,
    appConfigWriteOk := true, resourceNumFiles := 1, resourceWriteOk := true,
    appHeaderWriteOk := true, exporters := [],
    generatedFolderExists := true, readmeWriteOk := true }

/-- Sample flag assignment: A enabled, B unset, C disabled. -/
def sampleConfigFlag : String → FlagValue := fun s =>
  if s == "JUCE_FLAG_A" then FlagValue.enabled
  else if s == "JUCE_FLAG_C" then FlagValue.disabled
  else FlagValue.unset

/-- A sample project (current file location `one.jucer`). -/
def sampleProjectA : Project :=
  { projectUID := "a1b2c3", configFlag := sampleConfigFlag,
    projectName := "Demo", version := "1.0.0", versionAsHex := 65536,
    appConfigFilename := "AppConfig.h", juceSourceHFilename := "JuceHeader.h",
    fileLocation := "one.jucer" }

/-- The same project state saved at a different file location. -/
def sampleProjectB : Project :=
  { projectUID := "a1b2c3", configFlag := sampleConfigFlag,
    projectName := "Demo", version := "1.0.0", versionAsHex := 65536,
    appConfigFilename := "AppConfig.h", juceSourceHFilename := "JuceHeader.h",
    fileLocation := "two.jucer" }

/-- A sample module exposing two flags. -/
def sampleModuleCore : LibraryModule :=
  { id := "juce_core", configFlags := ["JUCE_FLAG_A", "JUCE_FLAG_B"],
    includeLines := [createIncludeStatement "modules/juce_core.h"] }

/-- A sample module exposing one flag. -/
def sampleModuleGui : LibraryModule :=
  { id := "juce_gui_basics", configFlags := ["JUCE_FLAG_C"],
    includeLines := [createIncludeStatement "modules/juce_gui_basics.h"] }

/-! ## Theorems -/

theorem deleteNonHiddenFilesIn_snd (l : List FSEntry) :
    (deleteNonHiddenFilesIn l).2 = !containsKeptIn l := by
  induction l using deleteNonHiddenFilesIn.induct with
  | case1 => simp [deleteNonHiddenFilesIn, containsKeptIn]
  | case2 n rest hkept ihrest =>
      simp [deleteNonHiddenFilesIn, containsKeptIn, containsKeptEntry, hkept, ihrest]
  | case3 n rest hkept ihrest =>
      simp [deleteNonHiddenFilesIn, containsKeptIn, containsKeptEntry, hkept, ihrest]
  | case4 n cs rest hkept ihrest =>
      simp [deleteNonHiddenFilesIn, containsKeptIn, containsKeptEntry, hkept, ihrest]
  | case5 n cs rest hkept hk c ihrest ihcs =>
      have c2 : (deleteNonHiddenFilesIn cs).2 = true := c
      have hcs : containsKeptIn cs = false := by
        rw [ihcs] at c2; simpa using c2
      simp [deleteNonHiddenFilesIn, containsKeptIn, containsKeptEntry,
        hkept, c2, hcs, ihrest]
  | case6 n cs rest hkept hk c ihrest ihcs =>
      have c2 : ¬ (deleteNonHiddenFilesIn cs).2 = true := c
      have hcs : containsKeptIn cs = true := by
        rw [ihcs] at c2; simpa using c2
      simp [deleteNonHiddenFilesIn, containsKeptIn, containsKeptEntry,
        hkept, hcs, ihrest, c2]

theorem deleteNonHiddenFilesIn_fst (l : List FSEntry) :
    (deleteNonHiddenFilesIn l).1 = l.filterMap pruneEntry := by
  induction l using deleteNonHiddenFilesIn.induct with
  | case1 => simp [deleteNonHiddenFilesIn]
  | case2 n rest hkept ihrest =>
      simp [deleteNonHiddenFilesIn, pruneEntry, hkept, ihrest]
  | case3 n rest hkept ihrest =>
      simp [deleteNonHiddenFilesIn, pruneEntry, hkept, ihrest]
  | case4 n cs rest hkept ihrest =>
      simp [deleteNonHiddenFilesIn, pruneEntry, hkept, ihrest]
  | case5 n cs rest hkept hk c ihrest ihcs =>
      have c2 : (deleteNonHiddenFilesIn cs).2 = true := c
      have hcs : containsKeptIn cs = false := by
        rw [deleteNonHiddenFilesIn_snd] at c2; simpa using c2
      simp [deleteNonHiddenFilesIn, pruneEntry, hkept, c2, hcs, ihrest]
  | case6 n cs rest hkept hk c ihrest ihcs =>
      have c2 : ¬ (deleteNonHiddenFilesIn cs).2 = true := c
      have hcs : containsKeptIn cs = true := by
        rw [deleteNonHiddenFilesIn_snd] at c2; simpa using c2
      simp [deleteNonHiddenFilesIn, pruneEntry, hkept, hcs, c2, ihrest]

theorem deleteNonHiddenFilesIn_empty_iff (l : List FSEntry) :
    (deleteNonHiddenFilesIn l).1 = [] ↔ (deleteNonHiddenFilesIn l).2 = true := by
  rw [deleteNonHiddenFilesIn_fst, deleteNonHiddenFilesIn_snd]
  induction l with
  | nil => simp [containsKeptIn]
  | cons e rest ih =>
      rw [containsKeptIn]
      cases e with
      | file n =>
          cases hkept : shouldFileBeKept n with
          | true => simp [pruneEntry, hkept, containsKeptEntry]
          | false => simpa [pruneEntry, hkept, containsKeptEntry] using ih
      | dir n cs =>
          cases hkept : shouldFileBeKept n with
          | true => simp [pruneEntry, hkept, containsKeptEntry]
          | false =>
              cases hcs : containsKeptIn cs with
              | true => simp [pruneEntry, hkept, hcs, containsKeptEntry]
              | false => simpa [pruneEntry, hkept, hcs, containsKeptEntry] using ih

theorem kept_entry_retained {l : List FSEntry} {e : FSEntry}
    (he : e ∈ l) (hk : shouldFileBeKept e.name = true) :
    e ∈ (deleteNonHiddenFilesIn l).1 := by
  rw [deleteNonHiddenFilesIn_fst, List.mem_filterMap]
  refine ⟨e, he, ?_⟩
  cases e with
  | file n => simp [pruneEntry, FSEntry.name] at hk ⊢; simp [hk]
  | dir n cs => simp [pruneEntry, FSEntry.name] at hk ⊢; simp [hk]

theorem nonkept_file_deleted {l : List FSEntry} {n : String}
    (hk : shouldFileBeKept n = false) :
    FSEntry.file n ∉ (deleteNonHiddenFilesIn l).1 := by
  rw [deleteNonHiddenFilesIn_fst, List.mem_filterMap]
  rintro ⟨a, _, ha⟩
  cases a with
  | file m =>
      by_cases hm : shouldFileBeKept m = true
      · simp [pruneEntry, hm] at ha
        rw [← ha] at hk
        rw [hm] at hk
        exact Bool.noConfusion hk
      · simp [pruneEntry, hm] at ha
  | dir m cs =>
      by_cases hm : shouldFileBeKept m = true
      · simp [pruneEntry, hm] at ha
      · by_cases hcs : containsKeptIn cs = true
        · simp [pruneEntry, hm, hcs] at ha
        · simp [pruneEntry, hm, hcs] at ha

theorem dir_with_kept_retained {l : List FSEntry} {n : String} {cs : List FSEntry}
    (he : FSEntry.dir n cs ∈ l) (hk : shouldFileBeKept n = false)
    (hcs : containsKeptIn cs = true) :
    FSEntry.dir n (deleteNonHiddenFilesIn cs).1 ∈ (deleteNonHiddenFilesIn l).1 := by
  rw [deleteNonHiddenFilesIn_fst, List.mem_filterMap]
  exact ⟨FSEntry.dir n cs, he, by simp [pruneEntry, hk, hcs]⟩

/-! ## Lemmas about the generated-files group -/

theorem findItemForFile_of_mem {g : List String} {p : String} (h : p ∈ g) :
    findItemForFile g p = some p := by
  induction g with
  | nil => simp at h
  | cons a g ih =>
      by_cases ha : a = p
      · subst ha; simp [findItemForFile, List.find?_cons]
      · have hmem : p ∈ g := by
          rcases List.mem_cons.mp h with h1 | h2
          · exact absurd h1.symm ha
          · exact h2
        have hb : (a == p) = false := by simpa using ha
        simpa [findItemForFile, List.find?_cons, hb] using ih hmem

theorem findItemForFile_of_not_mem {g : List String} {p : String} (h : p ∉ g) :
    findItemForFile g p = none := by
  rw [findItemForFile, List.find?_eq_none]
  intro x hx hbeq
  exact h (by simpa using (beq_iff_eq.mp hbeq) ▸ hx)

theorem addFileToGeneratedGroup_of_mem {g : List String} {p : String} (h : p ∈ g) :
    addFileToGeneratedGroup g p = (some p, g) := by
  simp [addFileToGeneratedGroup, findItemForFile_of_mem h]

theorem addFileToGeneratedGroup_of_not_mem {g : List String} {p : String} (h : p ∉ g) :
    addFileToGeneratedGroup g p = (some p, g ++ [p]) := by
  have hmem : p ∈ g ++ [p] := by simp
  rw [addFileToGeneratedGroup, findItemForFile_of_not_mem h]
  simp [addFile, findItemForFile_of_mem hmem]

theorem addFileToGeneratedGroup_fst (g : List String) (p : String) :
    (addFileToGeneratedGroup g p).1 = some p := by
  by_cases h : p ∈ g
  · rw [addFileToGeneratedGroup_of_mem h]
  · rw [addFileToGeneratedGroup_of_not_mem h]

theorem mem_addFileToGeneratedGroupL {g : List String} {x p : String} :
    x ∈ addFileToGeneratedGroupL g p ↔ x ∈ g ∨ x = p := by
  by_cases h : p ∈ g
  · rw [addFileToGeneratedGroupL, addFileToGeneratedGroup_of_mem h]
    constructor
    · exact Or.inl
    · rintro (hx | rfl)
      · exact hx
      · exact h
  · rw [addFileToGeneratedGroupL, addFileToGeneratedGroup_of_not_mem h]
    simp

theorem count_addFileToGeneratedGroupL {g : List String} {x p : String} (hx : x ∈ g) :
    (addFileToGeneratedGroupL g p).count x = g.count x := by
  by_cases h : p ∈ g
  · rw [addFileToGeneratedGroupL, addFileToGeneratedGroup_of_mem h]
  · rw [addFileToGeneratedGroupL, addFileToGeneratedGroup_of_not_mem h]
    have hpx : (p == x) = false := by
      refine beq_eq_false_iff_ne.mpr ?_
      intro hpe
      exact h (hpe ▸ hx)
    simp [List.count_append, List.count_singleton, hpx]

theorem mem_foldAdd {fs : List String} {g : List String} {x : String} :
    x ∈ fs.foldl addFileToGeneratedGroupL g ↔ x ∈ g ∨ x ∈ fs := by
  induction fs generalizing g with
  | nil => simp
  | cons f fs ih =>
      rw [List.foldl_cons, ih, mem_addFileToGeneratedGroupL]
      simp only [List.mem_cons]
      tauto

theorem count_foldAdd {fs : List String} {g : List String} {x : String} (hx : x ∈ g) :
    (fs.foldl addFileToGeneratedGroupL g).count x = g.count x := by
  induction fs generalizing g with
  | nil => simp
  | cons f fs ih =>
      rw [List.foldl_cons]
      have hx' : x ∈ addFileToGeneratedGroupL g f :=
        mem_addFileToGeneratedGroupL.mpr (Or.inl hx)
      rw [ih hx', count_addFileToGeneratedGroupL hx]

/-! ## Basic lemmas about the orchestrator steps -/

theorem mem_insertFile {x f : String} {d : List String} :
    x ∈ insertFile f d ↔ x ∈ d ∨ x = f := by
  rw [insertFile]
  by_cases h : f ∈ d
  · simp only [if_pos h]
    constructor
    · exact Or.inl
    · rintro (hx | rfl)
      · exact hx
      · exact h
  · simp [if_neg h]

theorem mem_sortGroupRecursively {g : List String} {x : String} :
    x ∈ sortGroupRecursively g ↔ x ∈ g := by
  rw [sortGroupRecursively]
  exact List.mem_mergeSort

theorem count_sortGroupRecursively (g : List String) (x : String) :
    (sortGroupRecursively g).count x = g.count x := by
  rw [sortGroupRecursively]
  exact (List.mergeSort_perm g _).count_eq x

theorem replaceFileIfDifferent_ok (f : String) (st : SaverState) :
    replaceFileIfDifferent f true st =
      (true, { st with disk := insertFile f st.disk, written := st.written ++ [f] }) := rfl

theorem replaceFileIfDifferent_fail (f : String) (st : SaverState) :
    replaceFileIfDifferent f false st =
      (false, { st with errors := st.errors ++ ["Can\x27t write to file: " ++ f] }) := rfl

theorem saveGeneratedFile_ok {cfg : SaveConfig} {env : SaveEnv} (fp : String)
    (st : SaverState) (hg : env.generatedFolderCreateOk = true) :
    (saveGeneratedFile cfg env fp true st).2 =
      { st with disk := insertFile (childFile cfg fp) st.disk,
                written := st.written ++ [childFile cfg fp],
                group := addFileToGeneratedGroupL st.group (childFile cfg fp) } := by
  simp [saveGeneratedFile, hg, replaceFileIfDifferent, addFileToGeneratedGroupL]

theorem saveGeneratedFile_writeFail {cfg : SaveConfig} {env : SaveEnv} (fp : String)
    (st : SaverState) (hg : env.generatedFolderCreateOk = true) :
    (saveGeneratedFile cfg env fp false st).2 =
      { st with errors := st.errors ++
          ["Can\x27t write to file: " ++ childFile cfg fp] } := by
  simp [saveGeneratedFile, hg, replaceFileIfDifferent]

theorem saveGeneratedFile_loc {cfg : SaveConfig} {env : SaveEnv} (fp : String)
    (wk : Bool) (st : SaverState) :
    (saveGeneratedFile cfg env fp wk st).2.projectFileLoc = st.projectFileLoc := by
  rw [saveGeneratedFile]
  by_cases hg : env.generatedFolderCreateOk
  · cases wk <;> simp [hg, replaceFileIfDifferent]
  · simp [hg]

theorem saveGeneratedFile_group_mono {cfg : SaveConfig} {env : SaveEnv} {fp : String}
    {wk : Bool} {st : SaverState} {x : String} (hx : x ∈ st.group) :
    x ∈ (saveGeneratedFile cfg env fp wk st).2.group := by
  rw [saveGeneratedFile]
  by_cases hg : env.generatedFolderCreateOk
  · cases wk
    · simpa [hg, replaceFileIfDifferent] using hx
    · simp [hg, replaceFileIfDifferent]
      exact mem_addFileToGeneratedGroupL.mpr (Or.inl hx)
  · simpa [hg] using hx

theorem writeMainProjectFile_errors_ok {cfg : SaveConfig} {env : SaveEnv}
    (st : SaverState) (h : env.descriptorWriteOk = true) :
    (writeMainProjectFile cfg env st).errors = st.errors := by
  simp [writeMainProjectFile, h, replaceFileIfDifferent]

theorem writeMainProjectFile_loc {cfg : SaveConfig} {env : SaveEnv} (st : SaverState) :
    (writeMainProjectFile cfg env st).projectFileLoc = st.projectFileLoc := by
  rw [writeMainProjectFile]
  cases h : env.descriptorWriteOk <;> simp [h, replaceFileIfDifferent]

theorem writeMainProjectFile_group {cfg : SaveConfig} {env : SaveEnv} (st : SaverState) :
    (writeMainProjectFile cfg env st).group = st.group := by
  rw [writeMainProjectFile]
  cases h : env.descriptorWriteOk <;> simp [h, replaceFileIfDifferent]

theorem writeAppConfigFile_loc {cfg : SaveConfig} {env : SaveEnv} (st : SaverState) :
    (writeAppConfigFile cfg env st).projectFileLoc = st.projectFileLoc := by
  rw [writeAppConfigFile]; exact saveGeneratedFile_loc _ _ _

theorem writeAppConfigFile_group_mono {cfg : SaveConfig} {env : SaveEnv}
    {st : SaverState} {x : String} (hx : x ∈ st.group) :
    x ∈ (writeAppConfigFile cfg env st).group := by
  rw [writeAppConfigFile]; exact saveGeneratedFile_group_mono hx

theorem writeAppHeaderFile_loc {cfg : SaveConfig} {env : SaveEnv} (st : SaverState) :
    (writeAppHeaderFile cfg env st).projectFileLoc = st.projectFileLoc := by
  rw [writeAppHeaderFile]; exact saveGeneratedFile_loc _ _ _

theorem writeAppHeaderFile_group_mono {cfg : SaveConfig} {env : SaveEnv}
    {st : SaverState} {x : String} (hx : x ∈ st.group) :
    x ∈ (writeAppHeaderFile cfg env st).group := by
  rw [writeAppHeaderFile]; exact saveGeneratedFile_group_mono hx

theorem writeBinaryDataFiles_loc {cfg : SaveConfig} {env : SaveEnv} (st : SaverState) :
    (writeBinaryDataFiles cfg env st).projectFileLoc = st.projectFileLoc := by
  rw [writeBinaryDataFiles]
  by_cases h1 : env.resourceNumFiles > 0 <;> by_cases h2 : env.resourceWriteOk <;>
    simp [h1, h2]

theorem writeBinaryDataFiles_group_mono {cfg : SaveConfig} {env : SaveEnv}
    {st : SaverState} {x : String} (hx : x ∈ st.group) :
    x ∈ (writeBinaryDataFiles cfg env st).group := by
  rw [writeBinaryDataFiles]
  by_cases h1 : env.resourceNumFiles > 0
  · by_cases h2 : env.resourceWriteOk
    · simp [h1, h2, addFile, hx]
    · simpa [h1, h2] using hx
  · simpa [h1] using hx

theorem writeReadmeFile_loc {cfg : SaveConfig} {env : SaveEnv} (st : SaverState) :
    (writeReadmeFile cfg env st).projectFileLoc = st.projectFileLoc := by
  rw [writeReadmeFile]
  cases h : env.readmeWriteOk <;> simp [h, replaceFileIfDifferent]

theorem writeReadmeFile_group {cfg : SaveConfig} {env : SaveEnv} (st : SaverState) :
    (writeReadmeFile cfg env st).group = st.group := by
  rw [writeReadmeFile]
  cases h : env.readmeWriteOk <;> simp [h, replaceFileIfDifferent]

/-! ## Lemmas about the exporter loop -/

theorem stepExporter_visited {snapshot : List String} {exps : List ExporterSpec}
    {i : Nat} (st : SaverState) (hi : i < exps.length) :
    (stepExporter snapshot exps i st).visited = st.visited ++ [i] := by
  rw [stepExporter, List.getElem?_eq_getElem hi]
  cases h : exps[i].dirCreateOk <;> simp [h]

theorem stepExporter_const (snapshot : List String) (exps : List ExporterSpec)
    (i : Nat) (st : SaverState) :
    (stepExporter snapshot exps i st).projectFileLoc = st.projectFileLoc ∧
    (stepExporter snapshot exps i st).disk = st.disk ∧
    (stepExporter snapshot exps i st).written = st.written := by
  rw [stepExporter]
  cases he : exps[i]? with
  | none => simp
  | some e => cases h : e.dirCreateOk <;> simp [h]

theorem writeProjectsAux_const (snapshot : List String) (exps : List ExporterSpec) :
    ∀ (n : Nat) (st : SaverState),
    (writeProjectsAux snapshot exps n st).projectFileLoc = st.projectFileLoc ∧
    (writeProjectsAux snapshot exps n st).disk = st.disk ∧
    (writeProjectsAux snapshot exps n st).written = st.written := by
  intro n
  induction n with
  | zero => intro st; exact ⟨rfl, rfl, rfl⟩
  | succ n ih =>
      intro st
      rw [writeProjectsAux]
      obtain ⟨h1, h2, h3⟩ := ih (stepExporter snapshot exps n st)
      obtain ⟨g1, g2, g3⟩ := stepExporter_const snapshot exps n st
      exact ⟨h1.trans g1, h2.trans g2, h3.trans g3⟩

theorem writeProjectsAux_visited (snapshot : List String) (exps : List ExporterSpec) :
    ∀ (n : Nat) (st : SaverState), n ≤ exps.length →
    (writeProjectsAux snapshot exps n st).visited = st.visited ++ (List.range n).reverse := by
  intro n
  induction n with
  | zero => intro st _; simp [writeProjectsAux]
  | succ n ih =>
      intro st hn
      rw [writeProjectsAux]
      rw [ih _ (Nat.le_of_succ_le hn)]
      rw [stepExporter_visited st (Nat.lt_of_succ_le hn)]
      rw [List.range_succ]
      simp

theorem writeProjectsAux_errors_clean {snapshot : List String} {exps : List ExporterSpec}
    (hyp : ∀ e ∈ exps, e.dirCreateOk = true ∧ e.createError = none) :
    ∀ (n : Nat) (st : SaverState),
    (writeProjectsAux snapshot exps n st).errors = st.errors := by
  intro n
  induction n with
  | zero => intro st; rfl
  | succ n ih =>
      intro st
      rw [writeProjectsAux, ih]
      rw [stepExporter]
      cases he : exps[n]? with
      | none => rfl
      | some e =>
          obtain ⟨hlt, hget⟩ := List.getElem?_eq_some_iff.mp he
          have hmem : e ∈ exps := hget ▸ List.getElem_mem hlt
          obtain ⟨hd, hc⟩ := hyp e hmem
          simp [hd, hc]

theorem writeProjectsAux_handedLog (snapshot : List String) (exps : List ExporterSpec) :
    ∀ (n : Nat) (st : SaverState) (p : Nat × List String),
    p ∈ (writeProjectsAux snapshot exps n st).handedLog →
    p ∈ st.handedLog ∨ ∃ e, exps[p.1]? = some e ∧
      ∀ x, x ∈ p.2 ↔ x ∈ snapshot ∨ x ∈ e.addedFiles := by
  intro n
  induction n with
  | zero => intro st p hp; exact Or.inl hp
  | succ n ih =>
      intro st p hp
      rcases ih _ p hp with h | h
      · rw [stepExporter] at h
        cases he : exps[n]? with
        | none => rw [he] at h; exact Or.inl h
        | some e =>
            rw [he] at h
            by_cases hd : e.dirCreateOk
            · simp only [hd, if_pos] at h
              simp only [List.mem_append, List.mem_singleton] at h
              rcases h with h | h
              · exact Or.inl h
              · subst h
                refine Or.inr ⟨e, he, ?_⟩
                intro x
                rw [mem_sortGroupRecursively, mem_foldAdd]
            · simp only [hd] at h
              simp at h
              exact Or.inl h
      · exact Or.inr h

theorem writeProjectsAux_group_mem (snapshot : List String) (exps : List ExporterSpec)
    {x : String} (hx : x ∈ snapshot) :
    ∀ (n : Nat) (st : SaverState), x ∈ st.group →
    x ∈ (writeProjectsAux snapshot exps n st).group := by
  intro n
  induction n with
  | zero => intro st h; exact h
  | succ n ih =>
      intro st h
      rw [writeProjectsAux]
      refine ih _ ?_
      rw [stepExporter]
      cases he : exps[n]? with
      | none => exact h
      | some e =>
          by_cases hd : e.dirCreateOk
          · simp only [hd, if_pos]
            exact mem_sortGroupRecursively.mpr (mem_foldAdd.mpr (Or.inl hx))
          · simpa [hd] using h

theorem writeProjectsAux_group_count (snapshot : List String) (exps : List ExporterSpec)
    {x : String} (hx : x ∈ snapshot) :
    ∀ (n : Nat) (st : SaverState), st.group.count x = snapshot.count x →
    (writeProjectsAux snapshot exps n st).group.count x = snapshot.count x := by
  intro n
  induction n with
  | zero => intro st h; exact h
  | succ n ih =>
      intro st h
      rw [writeProjectsAux]
      refine ih _ ?_
      rw [stepExporter]
      cases he : exps[n]? with
      | none => exact h
      | some e =>
          by_cases hd : e.dirCreateOk
          · simp only [hd, if_pos]
            rw [count_sortGroupRecursively, count_foldAdd hx]
          · simpa [hd] using h

theorem writeProjectsAux_group_sub (snapshot : List String) (exps : List ExporterSpec) :
    ∀ (n : Nat) (st : SaverState) (x : String),
    x ∈ (writeProjectsAux snapshot exps n st).group →
    x ∈ st.group ∨ x ∈ snapshot ∨ ∃ e ∈ exps, x ∈ e.addedFiles := by
  intro n
  induction n with
  | zero => intro st x h; exact Or.inl h
  | succ n ih =>
      intro st x h
      rcases ih _ x h with h2 | h2
      · rw [stepExporter] at h2
        cases he : exps[n]? with
        | none => rw [he] at h2; exact Or.inl h2
        | some e =>
            obtain ⟨hlt, hget⟩ := List.getElem?_eq_some_iff.mp he
            have hmem : e ∈ exps := hget ▸ List.getElem_mem hlt
            rw [he] at h2
            by_cases hd : e.dirCreateOk
            · simp only [hd, if_pos] at h2
              rcases mem_foldAdd.mp (mem_sortGroupRecursively.mp h2) with h3 | h3
              · exact Or.inr (Or.inl h3)
              · exact Or.inr (Or.inr ⟨e, hmem, h3⟩)
            · simp only [hd] at h2
              simp at h2
              exact Or.inl h2
      · exact Or.inr h2

/-! ## Claims -/

/-- **C4 (counterexample)**: with three exporters declared at indices 0, 1, 2,
`save()` iterates and invokes them in the order 2, 1, 0 — not in declared
order 0, 1, 2 as the claim states. -/
theorem counterexample_C4_exporter_order :
    (save sampleCfg sampleEnvThree (initialSaverState "old.jucer" [])).2.visited
        = [2, 1, 0] ∧
    (save sampleCfg sampleEnvThree (initialSaverState "old.jucer" [])).2.handedLog.map
        Prod.fst = [2, 1, 0] ∧
    ([2, 1, 0] : List Nat) ≠ [0, 1, 2] := by
  refine ⟨by decide, by decide, by decide⟩

/-- **C4 (amended)**: during step 6 of `save()`, the exporter loop
`for (int i = getNumExporters(); --i >= 0;)` visits the exporters in REVERSE
declared order: the exporter at the last index first, the exporter at index 0
last. -/
theorem claim_C4_exporter_order_amended (env : SaveEnv) (st : SaverState) :
    (writeProjects env st).visited
      = st.visited ++ (List.range env.exporters.length).reverse :=
  writeProjectsAux_visited st.group env.exporters env.exporters.length st le_rfl

/-- **C5**: `addFileToGeneratedGroup` is idempotent: when an item for the path
exists it is returned and the group is unchanged; otherwise exactly one new
leaf item is appended (count 1) and returned; a second registration of the
same path returns the same item and leaves the group unchanged. -/
theorem claim_C5_registration_idempotent (g : List String) (p : String) :
    (p ∈ g → addFileToGeneratedGroup g p = (some p, g)) ∧
    (p ∉ g → addFileToGeneratedGroup g p = (some p, g ++ [p]) ∧
      (addFileToGeneratedGroupL g p).count p = 1) ∧
    addFileToGeneratedGroup (addFileToGeneratedGroupL g p) p
      = (some p, addFileToGeneratedGroupL g p) := by
  refine ⟨addFileToGeneratedGroup_of_mem, ?_, ?_⟩
  · intro h
    refine ⟨addFileToGeneratedGroup_of_not_mem h, ?_⟩
    rw [addFileToGeneratedGroupL, addFileToGeneratedGroup_of_not_mem h]
    simp [List.count_append, List.count_singleton, List.count_eq_zero.mpr h]
  · have hp : p ∈ addFileToGeneratedGroupL g p :=
      mem_addFileToGeneratedGroupL.mpr (Or.inr rfl)
    exact addFileToGeneratedGroup_of_mem hp

/-- Witness for C5 at concrete inputs. -/
theorem claim_C5_registration_idempotent_witness :
    addFileToGeneratedGroup ["gen/A.h"] "gen/A.h" = (some "gen/A.h", ["gen/A.h"]) ∧
    (addFileToGeneratedGroup ["gen/A.h"] "gen/B.h"
        = (some "gen/B.h", ["gen/A.h", "gen/B.h"]) ∧
      (addFileToGeneratedGroupL ["gen/A.h"] "gen/B.h").count "gen/B.h" = 1) :=
  ⟨(claim_C5_registration_idempotent ["gen/A.h"] "gen/A.h").1 (by decide),
   (claim_C5_registration_idempotent ["gen/A.h"] "gen/B.h").2.1 (by decide)⟩

theorem containsKeptIn_delete (l : List FSEntry) :
    containsKeptIn (deleteNonHiddenFilesIn l).1 = containsKeptIn l := by
  induction l using deleteNonHiddenFilesIn.induct with
  | case1 => simp [deleteNonHiddenFilesIn, containsKeptIn]
  | case2 n rest hkept ihrest =>
      simp [deleteNonHiddenFilesIn, containsKeptIn, containsKeptEntry, hkept, ihrest]
  | case3 n rest hkept ihrest =>
      simp [deleteNonHiddenFilesIn, containsKeptIn, containsKeptEntry, hkept, ihrest]
  | case4 n cs rest hkept ihrest =>
      simp [deleteNonHiddenFilesIn, containsKeptIn, containsKeptEntry, hkept, ihrest]
  | case5 n cs rest hkept hk c ihrest ihcs =>
      have c2 : (deleteNonHiddenFilesIn cs).2 = true := c
      have hcs : containsKeptIn cs = false := by
        rw [deleteNonHiddenFilesIn_snd] at c2; simpa using c2
      simp [deleteNonHiddenFilesIn, containsKeptIn, containsKeptEntry,
        hkept, c2, hcs, ihrest]
  | case6 n cs rest hkept hk c ihrest ihcs =>
      have c2 : ¬ (deleteNonHiddenFilesIn cs).2 = true := c
      have hcs : containsKeptIn cs = true := by
        rw [deleteNonHiddenFilesIn_snd] at c2; simpa using c2
      simp [deleteNonHiddenFilesIn, containsKeptIn, containsKeptEntry,
        hkept, hcs, c2, ihrest, ihcs]

/-- **C6**: the recursive reset of the generated-code folder (a) reports
"empty" exactly when no kept entry remains anywhere, (b) leaves the folder
empty exactly when it reports so, (c) retains kept-named entries untouched,
(d) deletes every non-kept file, (e) retains (recursively pruned, in place) any
non-kept directory that contains a kept entry at any depth — a directory is
deleted exactly when its own recursive call reported it empty of kept entries —
(f) deletes every entry containing no kept entry, and (g) on a folder holding a
stale generated file plus a `.svn` directory keeps `.svn` untouched and removes
the stale file. -/
theorem claim_C6_folder_pruning (l : List FSEntry) :
    ((deleteNonHiddenFilesIn l).2 = true ↔ containsKeptIn l = false) ∧
    ((deleteNonHiddenFilesIn l).1 = [] ↔ (deleteNonHiddenFilesIn l).2 = true) ∧
    (∀ e ∈ l, shouldFileBeKept e.name = true → e ∈ (deleteNonHiddenFilesIn l).1) ∧
    (∀ n, shouldFileBeKept n = false → FSEntry.file n ∉ (deleteNonHiddenFilesIn l).1) ∧
    (∀ n cs, FSEntry.dir n cs ∈ l → shouldFileBeKept n = false →
      containsKeptIn cs = true →
      FSEntry.dir n (deleteNonHiddenFilesIn cs).1 ∈ (deleteNonHiddenFilesIn l).1) ∧
    (∀ e ∈ l, containsKeptEntry e = false → e ∉ (deleteNonHiddenFilesIn l).1) ∧
    deleteNonHiddenFilesIn [FSEntry.file "stale.cpp", FSEntry.dir ".svn" [FSEntry.file "entries"]]
      = ([FSEntry.dir ".svn" [FSEntry.file "entries"]], false) := by
  refine ⟨?_, deleteNonHiddenFilesIn_empty_iff l, fun e he hk => kept_entry_retained he hk,
    fun n hk => nonkept_file_deleted hk,
    fun n cs he hk hcs => dir_with_kept_retained he hk hcs, ?_, ?_⟩
  · rw [deleteNonHiddenFilesIn_snd]
    cases containsKeptIn l <;> simp
  · intro e _ hke hmem
    rw [deleteNonHiddenFilesIn_fst, List.mem_filterMap] at hmem
    obtain ⟨a, _, ha⟩ := hmem
    cases a with
    | file m =>
        by_cases hm : shouldFileBeKept m = true
        · simp only [pruneEntry, if_pos hm] at ha
          injection ha with ha2
          subst ha2
          rw [containsKeptEntry, hm] at hke
          exact Bool.noConfusion hke
        · simp [pruneEntry, hm] at ha
    | dir m cs =>
        by_cases hm : shouldFileBeKept m = true
        · simp only [pruneEntry, if_pos hm] at ha
          injection ha with ha2
          subst ha2
          rw [containsKeptEntry, hm] at hke
          simp at hke
        · by_cases hcs : containsKeptIn cs = true
          · simp only [pruneEntry, if_neg hm, if_pos hcs] at ha
            injection ha with ha2
            subst ha2
            rw [containsKeptEntry, containsKeptIn_delete, hcs] at hke
            simp at hke
          · simp [pruneEntry, hm, hcs] at ha
  · simp [deleteNonHiddenFilesIn, shouldFileBeKept]

/-- Witness for C6: the claim's own concrete scenario, produced by applying the
theorem at that input. -/

theorem claim_C6_folder_pruning_witness :
    FSEntry.dir ".svn" [FSEntry.file "entries"] ∈
      (deleteNonHiddenFilesIn
        [FSEntry.file "stale.cpp", FSEntry.dir ".svn" [FSEntry.file "entries"]]).1 ∧
    FSEntry.file "stale.cpp" ∉
      (deleteNonHiddenFilesIn
        [FSEntry.file "stale.cpp", FSEntry.dir ".svn" [FSEntry.file "entries"]]).1 :=
  ⟨(claim_C6_folder_pruning _).2.2.1 _ (by simp) (by decide),
   (claim_C6_folder_pruning _).2.2.2.1 "stale.cpp" (by decide)⟩

theorem writeProjects_group_mono (env : SaveEnv) (st : SaverState) {x : String}
    (hx : x ∈ st.group) : x ∈ (writeProjects env st).group :=
  writeProjectsAux_group_mem st.group env.exporters hx env.exporters.length st hx

/-- **C2**: exporter isolation.  For any two entries of the handed-groups log
(one per exporter whose `create()` ran), a file seen by the earlier exporter
that is neither in the pre-loop snapshot nor among the later exporter's own
additions is not in the group handed to the later exporter: each exporter's
group is rebuilt from the snapshot, so exporters never see each other's
generated-file contributions. -/
theorem claim_C2_exporter_isolation (env : SaveEnv) (st : SaverState)
    (hlog : st.handedLog = [])
    (i1 i2 : Nat) (g1 g2 : List String) (e2 : ExporterSpec) (f : String)
    (h1 : (i1, g1) ∈ (writeProjects env st).handedLog)
    (h2 : (i2, g2) ∈ (writeProjects env st).handedLog)
    (he2 : env.exporters[i2]? = some e2)
    (hf1 : f ∈ g1) (hsnap : f ∉ st.group) (hfe2 : f ∉ e2.addedFiles) :
    f ∉ g2 := by
  intro hf2
  rcases writeProjectsAux_handedLog st.group env.exporters env.exporters.length st
      (i2, g2) h2 with h | ⟨e, he, hmem⟩
  · rw [hlog] at h
    simp at h
  · have hee : e = e2 := by
      have := he2.symm.trans he
      exact (Option.some.injEq _ _ ▸ this).symm
    subst hee
    rcases (hmem f).mp hf2 with h3 | h3
    · exact hsnap h3
    · exact hfe2 h3

/-- Witness for C2: in `sampleEnvIsolation` the adder exporter (declared index
1) runs first and contributes `gen/X.cpp`; the plain exporter (index 0) runs
afterwards and its handed group does not contain that file. -/
theorem claim_C2_exporter_isolation_witness :
    "gen/X.cpp" ∉ ([] : List String) :=
  claim_C2_exporter_isolation sampleEnvIsolation (initialSaverState "old.jucer" [])
    rfl 1 0 ["gen/X.cpp"] [] (sampleExporter 0) "gen/X.cpp"
    (by simp [writeProjects, writeProjectsAux, stepExporter, sampleEnvIsolation,
          sampleExporter, sampleAdderExporter, initialSaverState,
          sortGroupRecursively, addFileToGeneratedGroupL, addFileToGeneratedGroup,
          findItemForFile, addFile])
    (by simp [writeProjects, writeProjectsAux, stepExporter, sampleEnvIsolation,
          sampleExporter, sampleAdderExporter, initialSaverState,
          sortGroupRecursively, addFileToGeneratedGroupL, addFileToGeneratedGroup,
          findItemForFile, addFile])
    (by decide) (by decide) (by decide) (by decide)

/-- **C10**: the assertion `generatedFilesGroup.getNumChildren() == 0` at the
top of `save()` holds in the state produced by the `ProjectSaver` constructor
(first call), and fails after a `save()` call that registered at least one
generated file (here: any call in an environment where the descriptor write,
the generated-folder creation and the config-header write succeed), so a
second `save()` on the same instance violates it. -/
theorem claim_C10_single_shot (loc : String) (disk : List String)
    (cfg : SaveConfig) (env : SaveEnv) (st : SaverState)
    (hdesc : env.descriptorWriteOk = true)
    (hgen : env.generatedFolderCreateOk = true)
    (hacw : env.appConfigWriteOk = true)
    (herr : st.errors = []) :
    savePrecondition (initialSaverState loc disk) ∧
    ¬ savePrecondition (save cfg env st).2 := by
  constructor
  · rfl
  · intro hpre
    have hmem : childFile cfg cfg.appConfigFilename ∈ (save cfg env st).2.group := by
      rw [save]
      have hgroup2 : ∀ s9 : SaverState,
          childFile cfg cfg.appConfigFilename ∈ s9.group →
          childFile cfg cfg.appConfigFilename ∈
            (if s9.errors.length > 0
             then { s9 with projectFileLoc := st.projectFileLoc } else s9).group := by
        intro s9 h
        split
        · exact h
        · exact h
      refine hgroup2 _ ?_
      rw [savePipeline]
      have herr2 : (writeMainProjectFile cfg env
          { st with projectFileLoc := cfg.targetProjectFile }).errors = [] := by
        rw [writeMainProjectFile_errors_ok _ hdesc]
        exact herr
      rw [herr2]
      simp only [List.length_nil, if_pos rfl]
      have hmem3 : childFile cfg cfg.appConfigFilename ∈
          (writeAppConfigFile cfg env (writeMainProjectFile cfg env
            { st with projectFileLoc := cfg.targetProjectFile })).group := by
        rw [writeAppConfigFile, hacw, saveGeneratedFile_ok _ _ hgen]
        exact mem_addFileToGeneratedGroupL.mpr (Or.inr rfl)
      have step : ∀ (c : Prop) [Decidable c] (f : SaverState → SaverState)
          (s : SaverState),
          (∀ t : SaverState, childFile cfg cfg.appConfigFilename ∈ t.group →
            childFile cfg cfg.appConfigFilename ∈ (f t).group) →
          childFile cfg cfg.appConfigFilename ∈ s.group →
          childFile cfg cfg.appConfigFilename ∈ (if c then f s else s).group := by
        intro c _ f s hf hs
        split
        · exact hf s hs
        · exact hs
      refine step _ _ _ (fun t ht => ?_) ?_
      · rw [writeReadmeFile_group]; exact ht
      · refine step _ _ _ (fun t ht => writeAppConfigFile_group_mono ht) ?_
        refine step _ _ _ (fun t ht => writeProjects_group_mono env t ht) ?_
        refine step _ _ _ (fun t ht => writeAppHeaderFile_group_mono ht) ?_
        refine step _ _ _ (fun t ht => writeBinaryDataFiles_group_mono ht) ?_
        exact hmem3
    rw [savePrecondition, List.length_eq_zero] at hpre
    rw [hpre] at hmem
    simp at hmem

/-- Witness for C10 at concrete inputs. -/
theorem claim_C10_single_shot_witness :
    savePrecondition (initialSaverState "new.jucer" []) ∧
    ¬ savePrecondition (save sampleCfg sampleEnvThree
        (initialSaverState "old.jucer" [])).2 :=
  claim_C10_single_shot "new.jucer" [] sampleCfg sampleEnvThree
    (initialSaverState "old.jucer" []) rfl rfl rfl rfl

/-- **C9 (counterexample)**: in a fully successful save with one binary
resource and no exporters, `ReadMe.txt` is physically written by the
orchestrator but no item for it exists in the generated-files group — the
completeness invariant as claimed does not hold for the README. -/
theorem counterexample_C9_readme_unregistered :
    "gen/ReadMe.txt" ∈
      (save sampleCfg sampleEnvReadme (initialSaverState "old.jucer" [])).2.written ∧
    findItemForFile
      (save sampleCfg sampleEnvReadme (initialSaverState "old.jucer" [])).2.group
      "gen/ReadMe.txt" = none ∧
    "gen/ReadMe.txt" ∉
      (save sampleCfg sampleEnvReadme (initialSaverState "old.jucer" [])).2.group := by
  refine ⟨by decide, by decide, by decide⟩

/-- **C1**: partial failure across exporters.  With three exporters where the
second one's target directory cannot be created (and the others succeed),
`save()` still invokes exporters #1 and #3 (`create()` runs for declared
indices 0 and 2), and the final error list holds exactly one entry naming
exporter #2's target folder. -/
theorem claim_C1_partial_failure (cfg : SaveConfig) (loc : String) (disk : List String)
    (e1 e2 e3 : ExporterSpec)
    (h1d : e1.dirCreateOk = true) (h1c : e1.createError = none)
    (h2d : e2.dirCreateOk = false)
    (h3d : e3.dirCreateOk = true) (h3c : e3.createError = none)
    (env : SaveEnv)
    (henv : env =
      { descriptorWriteOk := true, generatedFolderCreateOk := true,
        appConfigWriteOk := true, resourceNumFiles := 0, resourceWriteOk := true,
        appHeaderWriteOk := true, exporters := [e1, e2, e3],
        generatedFolderExists := false, readmeWriteOk := true }) :
    ((save cfg env (initialSaverState loc disk)).2.handedLog.map Prod.fst = [2, 0]) ∧
    (save cfg env (initialSaverState loc disk)).2.errors
      = ["Can\x27t create folder: " ++ e2.targetFolder] := by
  subst henv
  simp only [save, savePipeline, savePipelineFromBinary, initialSaverState,
    writeMainProjectFile, writeAppConfigFile, writeBinaryDataFiles,
    writeAppHeaderFile, writeProjects, writeReadmeFile, saveGeneratedFile,
    replaceFileIfDifferent]
  simp [writeProjectsAux, stepExporter, h1d, h1c, h2d, h3d, h3c]

/-- Witness for C1 at concrete inputs. -/
theorem claim_C1_partial_failure_witness :
    ((save sampleCfg
        { descriptorWriteOk := true, generatedFolderCreateOk := true,
          appConfigWriteOk := true, resourceNumFiles := 0, resourceWriteOk := true,
          appHeaderWriteOk := true,
          exporters := [sampleExporter 0,
            { name := "broken", targetFolder := "badfolder", dirCreateOk := false,
              addedFiles := [], createError := none },
            sampleExporter 2],
          generatedFolderExists := false, readmeWriteOk := true }
        (initialSaverState "old.jucer" [])).2.handedLog.map Prod.fst = [2, 0]) ∧
    (save sampleCfg
        { descriptorWriteOk := true, generatedFolderCreateOk := true,
          appConfigWriteOk := true, resourceNumFiles := 0, resourceWriteOk := true,
          appHeaderWriteOk := true,
          exporters := [sampleExporter 0,
            { name := "broken", targetFolder := "badfolder", dirCreateOk := false,
              addedFiles := [], createError := none },
            sampleExporter 2],
          generatedFolderExists := false, readmeWriteOk := true }
        (initialSaverState "old.jucer" [])).2.errors
      = ["Can\x27t create folder: " ++ "badfolder"] :=
  claim_C1_partial_failure sampleCfg "old.jucer" [] (sampleExporter 0)
    { name := "broken", targetFolder := "badfolder", dirCreateOk := false,
      addedFiles := [], createError := none }
    (sampleExporter 2) rfl rfl rfl rfl rfl _ rfl

/-! ## Written-files-stay-on-disk machinery (for C3) -/

theorem replaceFileIfDifferent_wd {f : String} {ok : Bool} {st : SaverState}
    (h : ∀ x ∈ st.written, x ∈ st.disk) :
    ∀ x ∈ (replaceFileIfDifferent f ok st).2.written,
      x ∈ (replaceFileIfDifferent f ok st).2.disk := by
  cases ok with
  | false => simpa [replaceFileIfDifferent] using h
  | true =>
      rw [replaceFileIfDifferent_ok]
      intro x hx
      rcases List.mem_append.mp hx with hx | hx
      · exact mem_insertFile.mpr (Or.inl (h x hx))
      · rw [List.mem_singleton] at hx
        exact mem_insertFile.mpr (Or.inr hx)

theorem saveGeneratedFile_wd {cfg : SaveConfig} {env : SaveEnv} {fp : String}
    {wk : Bool} {st : SaverState} (h : ∀ x ∈ st.written, x ∈ st.disk) :
    ∀ x ∈ (saveGeneratedFile cfg env fp wk st).2.written,
      x ∈ (saveGeneratedFile cfg env fp wk st).2.disk := by
  rw [saveGeneratedFile]
  by_cases hg : env.generatedFolderCreateOk
  · cases wk with
    | false =>
        simp only [hg, Bool.not_true, Bool.false_eq_true, if_false]
        simpa [replaceFileIfDifferent] using h
    | true =>
        simp only [hg, Bool.not_true, Bool.false_eq_true, if_false,
          replaceFileIfDifferent_ok]
        intro x hx
        rcases List.mem_append.mp hx with hx2 | hx2
        · exact mem_insertFile.mpr (Or.inl (h x hx2))
        · exact mem_insertFile.mpr (Or.inr (List.mem_singleton.mp hx2))
  · simp only [hg]
    simpa using h

theorem writeMainProjectFile_wd {cfg : SaveConfig} {env : SaveEnv} {st : SaverState}
    (h : ∀ x ∈ st.written, x ∈ st.disk) :
    ∀ x ∈ (writeMainProjectFile cfg env st).written,
      x ∈ (writeMainProjectFile cfg env st).disk := by
  rw [writeMainProjectFile]
  exact replaceFileIfDifferent_wd h

theorem writeAppConfigFile_wd {cfg : SaveConfig} {env : SaveEnv} {st : SaverState}
    (h : ∀ x ∈ st.written, x ∈ st.disk) :
    ∀ x ∈ (writeAppConfigFile cfg env st).written,
      x ∈ (writeAppConfigFile cfg env st).disk := by
  rw [writeAppConfigFile]
  exact saveGeneratedFile_wd h

theorem writeAppHeaderFile_wd {cfg : SaveConfig} {env : SaveEnv} {st : SaverState}
    (h : ∀ x ∈ st.written, x ∈ st.disk) :
    ∀ x ∈ (writeAppHeaderFile cfg env st).written,
      x ∈ (writeAppHeaderFile cfg env st).disk := by
  rw [writeAppHeaderFile]
  exact saveGeneratedFile_wd h

theorem writeReadmeFile_wd {cfg : SaveConfig} {env : SaveEnv} {st : SaverState}
    (h : ∀ x ∈ st.written, x ∈ st.disk) :
    ∀ x ∈ (writeReadmeFile cfg env st).written,
      x ∈ (writeReadmeFile cfg env st).disk := by
  rw [writeReadmeFile]
  exact replaceFileIfDifferent_wd h

theorem writeProjects_wd {env : SaveEnv} {st : SaverState}
    (h : ∀ x ∈ st.written, x ∈ st.disk) :
    ∀ x ∈ (writeProjects env st).written, x ∈ (writeProjects env st).disk := by
  rw [writeProjects]
  obtain ⟨-, h2, h3⟩ :=
    writeProjectsAux_const st.group env.exporters env.exporters.length st
  rw [h2, h3]
  exact h

theorem writeBinaryDataFiles_wd {cfg : SaveConfig} {env : SaveEnv} {st : SaverState}
    (hc : binaryDataCppPath cfg ∉ st.written)
    (hh : binaryDataHPath cfg ∉ st.written)
    (h : ∀ x ∈ st.written, x ∈ st.disk) :
    ∀ x ∈ (writeBinaryDataFiles cfg env st).written,
      x ∈ (writeBinaryDataFiles cfg env st).disk := by
  rw [writeBinaryDataFiles]
  by_cases h1 : env.resourceNumFiles > 0
  · by_cases h2 : env.resourceWriteOk
    · simp only [h1, if_pos, h2, if_true]
      intro x hx
      rcases List.mem_append.mp hx with hx2 | hx2
      · exact mem_insertFile.mpr (Or.inl (mem_insertFile.mpr (Or.inl (h x hx2))))
      · rcases List.mem_cons.mp hx2 with hx3 | hx3
        · exact mem_insertFile.mpr (Or.inl (mem_insertFile.mpr (Or.inr hx3)))
        · exact mem_insertFile.mpr (Or.inr (List.mem_singleton.mp hx3))
    · simp only [h1, if_pos, h2]
      simpa using h
  · simp only [if_neg h1]
    intro x hx
    refine List.mem_filter.mpr ⟨h x hx, ?_⟩
    have hxc : x ≠ binaryDataCppPath cfg := fun he => hc (he ▸ hx)
    have hxh : x ≠ binaryDataHPath cfg := fun he => hh (he ▸ hx)
    simp [hxc, hxh]

theorem replaceFileIfDifferent_written_sub {f : String} {ok : Bool} {st : SaverState} :
    ∀ x ∈ (replaceFileIfDifferent f ok st).2.written, x ∈ st.written ∨ x = f := by
  cases ok with
  | false => intro x hx; exact Or.inl (by simpa [replaceFileIfDifferent] using hx)
  | true =>
      rw [replaceFileIfDifferent_ok]
      intro x hx
      simpa using List.mem_append.mp hx

theorem writeMainProjectFile_written_sub {cfg : SaveConfig} {env : SaveEnv}
    {st : SaverState} :
    ∀ x ∈ (writeMainProjectFile cfg env st).written,
      x ∈ st.written ∨ x = cfg.targetProjectFile := by
  rw [writeMainProjectFile]
  exact replaceFileIfDifferent_written_sub

theorem saveGeneratedFile_written_sub {cfg : SaveConfig} {env : SaveEnv}
    {fp : String} {wk : Bool} {st : SaverState} :
    ∀ x ∈ (saveGeneratedFile cfg env fp wk st).2.written,
      x ∈ st.written ∨ x = childFile cfg fp := by
  rw [saveGeneratedFile]
  by_cases hg : env.generatedFolderCreateOk
  · cases wk with
    | false =>
        simp only [hg, Bool.not_true, Bool.false_eq_true, if_false]
        intro x hx
        exact Or.inl (by simpa [replaceFileIfDifferent] using hx)
    | true =>
        simp only [hg, Bool.not_true, Bool.false_eq_true, if_false,
          replaceFileIfDifferent_ok]
        intro x hx
        simpa using List.mem_append.mp hx
  · simp only [hg]
    intro x hx
    exact Or.inl (by simpa using hx)

theorem loc_if (c : Prop) [Decidable c] (f : SaverState → SaverState)
    (s : SaverState) (hf : (f s).projectFileLoc = s.projectFileLoc) :
    (if c then f s else s).projectFileLoc = s.projectFileLoc := by
  split
  · exact hf
  · rfl

theorem writeProjects_loc (env : SaveEnv) (st : SaverState) :
    (writeProjects env st).projectFileLoc = st.projectFileLoc :=
  (writeProjectsAux_const st.group env.exporters env.exporters.length st).1

theorem savePipelineFromBinary_loc (cfg : SaveConfig) (env : SaveEnv)
    (s3 : SaverState) :
    (savePipelineFromBinary cfg env s3).projectFileLoc = s3.projectFileLoc := by
  rw [savePipelineFromBinary]
  refine (loc_if _ _ _ (writeReadmeFile_loc _)).trans ?_
  refine (loc_if _ _ _ (writeAppConfigFile_loc _)).trans ?_
  refine (loc_if _ _ _ (writeProjects_loc _ _)).trans ?_
  refine (loc_if _ _ _ (writeAppHeaderFile_loc _)).trans ?_
  exact loc_if _ _ _ (writeBinaryDataFiles_loc _)

theorem savePipeline_loc (cfg : SaveConfig) (env : SaveEnv) (st1 : SaverState) :
    (savePipeline cfg env st1).projectFileLoc = st1.projectFileLoc := by
  rw [savePipeline]
  refine (savePipelineFromBinary_loc _ _ _).trans ?_
  refine (loc_if _ _ _ (writeAppConfigFile_loc _)).trans ?_
  exact writeMainProjectFile_loc _

theorem wd_if (c : Prop) [Decidable c] (f : SaverState → SaverState) (s : SaverState)
    (hf : (∀ x ∈ s.written, x ∈ s.disk) → ∀ x ∈ (f s).written, x ∈ (f s).disk)
    (hs : ∀ x ∈ s.written, x ∈ s.disk) :
    ∀ x ∈ (if c then f s else s).written, x ∈ (if c then f s else s).disk := by
  split
  · exact hf hs
  · exact hs

theorem savePipelineFromBinary_wd (cfg : SaveConfig) (env : SaveEnv)
    (s3 : SaverState)
    (hc : binaryDataCppPath cfg ∉ s3.written)
    (hh : binaryDataHPath cfg ∉ s3.written)
    (hwd : ∀ x ∈ s3.written, x ∈ s3.disk) :
    ∀ x ∈ (savePipelineFromBinary cfg env s3).written,
      x ∈ (savePipelineFromBinary cfg env s3).disk := by
  rw [savePipelineFromBinary]
  refine wd_if _ _ _ (fun h => writeReadmeFile_wd h) ?_
  refine wd_if _ _ _ (fun h => writeAppConfigFile_wd h) ?_
  refine wd_if _ _ _ (fun h => writeProjects_wd h) ?_
  refine wd_if _ _ _ (fun h => writeAppHeaderFile_wd h) ?_
  exact wd_if _ _ _ (fun h => writeBinaryDataFiles_wd hc hh h) hwd

theorem savePipeline_wd (cfg : SaveConfig) (env : SaveEnv) (st1 : SaverState)
    (hw0 : st1.written = [])
    (h1 : cfg.targetProjectFile ≠ binaryDataCppPath cfg)
    (h2 : cfg.targetProjectFile ≠ binaryDataHPath cfg)
    (h3 : childFile cfg cfg.appConfigFilename ≠ binaryDataCppPath cfg)
    (h4 : childFile cfg cfg.appConfigFilename ≠ binaryDataHPath cfg)
    (hwd : ∀ x ∈ st1.written, x ∈ st1.disk) :
    ∀ x ∈ (savePipeline cfg env st1).written, x ∈ (savePipeline cfg env st1).disk := by
  rw [savePipeline]
  have hwd2 : ∀ x ∈ (writeMainProjectFile cfg env st1).written,
      x ∈ (writeMainProjectFile cfg env st1).disk := writeMainProjectFile_wd hwd
  have hws2 : ∀ x ∈ (writeMainProjectFile cfg env st1).written,
      x = cfg.targetProjectFile := by
    intro x hx
    rcases writeMainProjectFile_written_sub x hx with h | h
    · rw [hw0] at h; simp at h
    · exact h
  by_cases c3 : (writeMainProjectFile cfg env st1).errors.length = 0
  · rw [if_pos c3]
    have hws3 : ∀ x ∈ (writeAppConfigFile cfg env
        (writeMainProjectFile cfg env st1)).written,
        x = cfg.targetProjectFile ∨ x = childFile cfg cfg.appConfigFilename := by
      intro x hx
      rw [writeAppConfigFile] at hx
      rcases saveGeneratedFile_written_sub x hx with h | h
      · exact Or.inl (hws2 x h)
      · exact Or.inr h
    refine savePipelineFromBinary_wd cfg env _ ?_ ?_ (writeAppConfigFile_wd hwd2)
    · intro hmem
      rcases hws3 _ hmem with h | h
      · exact h1 h.symm
      · exact h3 h.symm
    · intro hmem
      rcases hws3 _ hmem with h | h
      · exact h2 h.symm
      · exact h4 h.symm
  · rw [if_neg c3]
    refine savePipelineFromBinary_wd cfg env _ ?_ ?_ hwd2
    · intro hmem
      exact h1 (hws2 _ hmem).symm
    · intro hmem
      exact h2 (hws2 _ hmem).symm

/-- **C3**: error outcome of `save()`.  With no error recorded, the project's
file-location attribute ends at the target path and `save` returns the empty
string; with any error recorded, the attribute is restored to its pre-save
value and `save` returns the first recorded error.  In either case every file
written during the save is still on disk at the end (nothing written is
deleted on the error path). -/
theorem claim_C3_error_outcome (cfg : SaveConfig) (env : SaveEnv)
    (loc : String) (disk : List String)
    (h1 : cfg.targetProjectFile ≠ binaryDataCppPath cfg)
    (h2 : cfg.targetProjectFile ≠ binaryDataHPath cfg)
    (h3 : childFile cfg cfg.appConfigFilename ≠ binaryDataCppPath cfg)
    (h4 : childFile cfg cfg.appConfigFilename ≠ binaryDataHPath cfg) :
    ((save cfg env (initialSaverState loc disk)).2.errors = [] →
      (save cfg env (initialSaverState loc disk)).2.projectFileLoc
          = cfg.targetProjectFile ∧
      (save cfg env (initialSaverState loc disk)).1 = "") ∧
    ((save cfg env (initialSaverState loc disk)).2.errors ≠ [] →
      (save cfg env (initialSaverState loc disk)).2.projectFileLoc = loc ∧
      (save cfg env (initialSaverState loc disk)).1
        = (save cfg env (initialSaverState loc disk)).2.errors.headD "") ∧
    (∀ f ∈ (save cfg env (initialSaverState loc disk)).2.written,
      f ∈ (save cfg env (initialSaverState loc disk)).2.disk) := by
  have hwd : ∀ x ∈ (savePipeline cfg env
      { initialSaverState loc disk with
        projectFileLoc := cfg.targetProjectFile }).written,
      x ∈ (savePipeline cfg env
      { initialSaverState loc disk with
        projectFileLoc := cfg.targetProjectFile }).disk := by
    refine savePipeline_wd cfg env _ rfl h1 h2 h3 h4 ?_
    intro x hx
    simp [initialSaverState] at hx
  have hloc : (savePipeline cfg env
      { initialSaverState loc disk with
        projectFileLoc := cfg.targetProjectFile }).projectFileLoc
      = cfg.targetProjectFile := savePipeline_loc cfg env _
  rw [save]
  by_cases hc : (savePipeline cfg env
      { initialSaverState loc disk with
        projectFileLoc := cfg.targetProjectFile }).errors.length > 0
  · simp only [if_pos hc]
    have hne : (savePipeline cfg env
        { initialSaverState loc disk with
          projectFileLoc := cfg.targetProjectFile }).errors ≠ [] := by
      intro h
      rw [h] at hc
      simp at hc
    refine ⟨fun h => absurd h hne, fun _ => ⟨rfl, by trivial⟩, ?_⟩
    intro f hf
    exact hwd f hf
  · simp only [if_neg hc]
    have heq : (savePipeline cfg env
        { initialSaverState loc disk with
          projectFileLoc := cfg.targetProjectFile }).errors = [] := by
      rcases Nat.eq_zero_or_pos (savePipeline cfg env
        { initialSaverState loc disk with
          projectFileLoc := cfg.targetProjectFile }).errors.length with h | h
      · exact List.length_eq_zero.mp h
      · exact absurd h hc
    refine ⟨fun _ => ⟨hloc, ?_⟩, fun h => absurd heq h, hwd⟩
    rw [heq]
    rfl

/-- Witness for C3 at concrete inputs (a fully successful save). -/
theorem claim_C3_error_outcome_witness :
    (save sampleCfg sampleEnvReadme (initialSaverState "old.jucer" [])).2.projectFileLoc
        = sampleCfg.targetProjectFile ∧
    (save sampleCfg sampleEnvReadme (initialSaverState "old.jucer" [])).1 = "" :=
  (claim_C3_error_outcome sampleCfg sampleEnvReadme "old.jucer" []
    (by decide) (by decide) (by decide) (by decide)).1 (by decide)

/-- **C9 (amended)**: at the end of a fully successful save with at least one
binary resource, the configuration header, the binary-data pair and the
umbrella header are each represented by exactly one item in the generated
group; the README is physically written but is NOT represented by any item
(and exporter contributions are reset between exporters, so they are not in
the final group either). -/
theorem claim_C9_group_completeness_amended (cfg : SaveConfig) (env : SaveEnv)
    (loc : String) (disk : List String)
    (hdesc : env.descriptorWriteOk = true)
    (hgen : env.generatedFolderCreateOk = true)
    (hacw : env.appConfigWriteOk = true)
    (hrn : env.resourceNumFiles > 0)
    (hrw : env.resourceWriteOk = true)
    (hhw : env.appHeaderWriteOk = true)
    (hexp : ∀ e ∈ env.exporters, e.dirCreateOk = true ∧ e.createError = none)
    (hne1 : childFile cfg cfg.appConfigFilename ≠ binaryDataCppPath cfg)
    (hne2 : childFile cfg cfg.appConfigFilename ≠ binaryDataHPath cfg)
    (hne3 : childFile cfg cfg.appConfigFilename ≠ childFile cfg cfg.juceSourceHFilename)
    (hne4 : binaryDataCppPath cfg ≠ binaryDataHPath cfg)
    (hne5 : binaryDataCppPath cfg ≠ childFile cfg cfg.juceSourceHFilename)
    (hne6 : binaryDataHPath cfg ≠ childFile cfg cfg.juceSourceHFilename)
    (hr1 : childFile cfg "ReadMe.txt" ≠ childFile cfg cfg.appConfigFilename)
    (hr2 : childFile cfg "ReadMe.txt" ≠ binaryDataCppPath cfg)
    (hr3 : childFile cfg "ReadMe.txt" ≠ binaryDataHPath cfg)
    (hr4 : childFile cfg "ReadMe.txt" ≠ childFile cfg cfg.juceSourceHFilename)
    (hrexp : ∀ e ∈ env.exporters, childFile cfg "ReadMe.txt" ∉ e.addedFiles) :
    (save cfg env (initialSaverState loc disk)).2.group.count
        (childFile cfg cfg.appConfigFilename) = 1 ∧
    (save cfg env (initialSaverState loc disk)).2.group.count
        (binaryDataCppPath cfg) = 1 ∧
    (save cfg env (initialSaverState loc disk)).2.group.count
        (binaryDataHPath cfg) = 1 ∧
    (save cfg env (initialSaverState loc disk)).2.group.count
        (childFile cfg cfg.juceSourceHFilename) = 1 ∧
    (env.generatedFolderExists = true → env.readmeWriteOk = true →
      childFile cfg "ReadMe.txt" ∈ (save cfg env (initialSaverState loc disk)).2.written ∧
      childFile cfg "ReadMe.txt" ∉ (save cfg env (initialSaverState loc disk)).2.group) := by
  rw [save]
  set E1 := { initialSaverState loc disk with
    projectFileLoc := cfg.targetProjectFile } with hE1
  set E2 := writeMainProjectFile cfg env E1 with hE2
  set E3 := writeAppConfigFile cfg env E2 with hE3
  set E4 := writeBinaryDataFiles cfg env E3 with hE4
  set E5 := writeAppHeaderFile cfg env E4 with hE5
  set E6 := writeProjects env E5 with hE6
  set E7 := writeAppConfigFile cfg env E6 with hE7
  have e2err : E2.errors = [] := by
    rw [hE2, writeMainProjectFile_errors_ok _ hdesc, hE1]
    rfl
  have g2 : E2.group = [] := by
    rw [hE2, writeMainProjectFile_group, hE1]
    rfl
  have e3err : E3.errors = [] := by
    rw [hE3, writeAppConfigFile, hacw, saveGeneratedFile_ok _ _ hgen]
    exact e2err
  have g3 : E3.group = [childFile cfg cfg.appConfigFilename] := by
    rw [hE3, writeAppConfigFile, hacw, saveGeneratedFile_ok _ _ hgen]
    show addFileToGeneratedGroupL E2.group (childFile cfg cfg.appConfigFilename) = _
    rw [g2, addFileToGeneratedGroupL, addFileToGeneratedGroup_of_not_mem (by simp)]
    rfl
  have hbin : E4 = { E3 with
      disk := insertFile (binaryDataHPath cfg)
        (insertFile (binaryDataCppPath cfg) E3.disk),
      written := E3.written ++ [binaryDataCppPath cfg, binaryDataHPath cfg],
      group := addFile (addFile E3.group (binaryDataCppPath cfg))
        (binaryDataHPath cfg) } := by
    rw [hE4, writeBinaryDataFiles, if_pos hrn]
    simp only [hrw, if_true]
  have e4err : E4.errors = [] := by rw [hbin]; exact e3err
  have g4 : E4.group = [childFile cfg cfg.appConfigFilename,
      binaryDataCppPath cfg, binaryDataHPath cfg] := by
    rw [hbin]
    show addFile (addFile E3.group (binaryDataCppPath cfg)) (binaryDataHPath cfg) = _
    rw [g3]
    rfl
  have e5err : E5.errors = [] := by
    rw [hE5, writeAppHeaderFile, hhw, saveGeneratedFile_ok _ _ hgen]
    exact e4err
  have hnm5 : childFile cfg cfg.juceSourceHFilename ∉
      ([childFile cfg cfg.appConfigFilename, binaryDataCppPath cfg,
        binaryDataHPath cfg] : List String) := by
    intro h
    simp only [List.mem_cons, List.not_mem_nil, or_false] at h
    rcases h with h | h | h
    · exact hne3 h.symm
    · exact hne5 h.symm
    · exact hne6 h.symm
  have g5 : E5.group = [childFile cfg cfg.appConfigFilename,
      binaryDataCppPath cfg, binaryDataHPath cfg,
      childFile cfg cfg.juceSourceHFilename] := by
    rw [hE5, writeAppHeaderFile, hhw, saveGeneratedFile_ok _ _ hgen]
    show addFileToGeneratedGroupL E4.group (childFile cfg cfg.juceSourceHFilename) = _
    rw [g4, addFileToGeneratedGroupL, addFileToGeneratedGroup_of_not_mem hnm5]
    rfl
  have e6err : E6.errors = [] := by
    rw [hE6, writeProjects, writeProjectsAux_errors_clean hexp]
    exact e5err
  have hmemac : childFile cfg cfg.appConfigFilename ∈ E6.group := by
    rw [hE6]
    refine writeProjects_group_mono env E5 ?_
    rw [g5]; simp
  have g7 : E7.group = E6.group := by
    rw [hE7, writeAppConfigFile, hacw, saveGeneratedFile_ok _ _ hgen]
    show addFileToGeneratedGroupL E6.group (childFile cfg cfg.appConfigFilename) = _
    rw [addFileToGeneratedGroupL, addFileToGeneratedGroup_of_mem hmemac]
  have e7err : E7.errors = [] := by
    rw [hE7, writeAppConfigFile, hacw, saveGeneratedFile_ok _ _ hgen]
    exact e6err
  have hPIPE : savePipeline cfg env E1 =
      if env.generatedFolderExists = true then writeReadmeFile cfg env E7 else E7 := by
    rw [savePipeline, ← hE2]
    rw [e2err]
    simp only [List.length_nil, if_pos]
    rw [← hE3, savePipelineFromBinary]
    simp only [e3err, List.length_nil, if_pos, ← hE4, e4err, ← hE5, e5err,
      ← hE6, e6err, ← hE7, e7err]
    simp
  have hcount6 : ∀ x, x ∈ E5.group → E6.group.count x = E5.group.count x := by
    intro x hx
    rw [hE6, writeProjects]
    exact writeProjectsAux_group_count E5.group env.exporters hx
      env.exporters.length E5 rfl
  have hcullAll : ∀ x, x ∈ E5.group →
      (savePipeline cfg env E1).group.count x = E5.group.count x := by
    intro x hx
    rw [hPIPE]
    split
    · rw [writeReadmeFile_group, g7, hcount6 x hx]
    · rw [g7, hcount6 x hx]
  have hfing : ∀ (s8 : SaverState) (lv : String),
      (if s8.errors.length > 0 then { s8 with projectFileLoc := lv }
       else s8).group = s8.group := by
    intro s8 lv; split <;> rfl
  have hfinw : ∀ (s8 : SaverState) (lv : String),
      (if s8.errors.length > 0 then { s8 with projectFileLoc := lv }
       else s8).written = s8.written := by
    intro s8 lv; split <;> rfl
  have hgrpipe : (savePipeline cfg env E1).group = E6.group := by
    rw [hPIPE]
    split
    · rw [writeReadmeFile_group, g7]
    · rw [g7]
  refine ⟨?_, ?_, ?_, ?_, ?_⟩
  · rw [hfing, hcullAll _ (by rw [g5]; simp), g5]
    simp [List.count_cons, Ne.symm hne1, Ne.symm hne2, Ne.symm hne3]
  · rw [hfing, hcullAll _ (by rw [g5]; simp), g5]
    simp [List.count_cons, hne1, Ne.symm hne4, Ne.symm hne5]
  · rw [hfing, hcullAll _ (by rw [g5]; simp), g5]
    simp [List.count_cons, hne2, hne4, Ne.symm hne6]
  · rw [hfing, hcullAll _ (by rw [g5]; simp), g5]
    simp [List.count_cons, hne3, hne5, hne6]
  · intro hex hrok
    constructor
    · rw [hfinw, hPIPE, if_pos hex, writeReadmeFile, hrok, replaceFileIfDifferent_ok]
      show childFile cfg "ReadMe.txt" ∈ E7.written ++ [childFile cfg "ReadMe.txt"]
      simp
    · rw [hfing, hgrpipe]
      intro hmem
      rw [hE6, writeProjects] at hmem
      rcases writeProjectsAux_group_sub E5.group env.exporters
          env.exporters.length E5 _ hmem with h | h | h
      · rw [g5] at h
        simp only [List.mem_cons, List.not_mem_nil, or_false] at h
        rcases h with h | h | h | h
        · exact hr1 h
        · exact hr2 h
        · exact hr3 h
        · exact hr4 h
      · rw [g5] at h
        simp only [List.mem_cons, List.not_mem_nil, or_false] at h
        rcases h with h | h | h | h
        · exact hr1 h
        · exact hr2 h
        · exact hr3 h
        · exact hr4 h
      · obtain ⟨e, he, hf⟩ := h
        exact hrexp e he hf

/-- Witness for C9 (amended) at concrete inputs. -/
theorem claim_C9_group_completeness_amended_witness :
    (save sampleCfg sampleEnvReadme (initialSaverState "old.jucer" [])).2.group.count
        (childFile sampleCfg sampleCfg.appConfigFilename) = 1 ∧
    (save sampleCfg sampleEnvReadme (initialSaverState "old.jucer" [])).2.group.count
        (binaryDataCppPath sampleCfg) = 1 ∧
    (save sampleCfg sampleEnvReadme (initialSaverState "old.jucer" [])).2.group.count
        (binaryDataHPath sampleCfg) = 1 ∧
    (save sampleCfg sampleEnvReadme (initialSaverState "old.jucer" [])).2.group.count
        (childFile sampleCfg sampleCfg.juceSourceHFilename) = 1 ∧
    (sampleEnvReadme.generatedFolderExists = true →
      sampleEnvReadme.readmeWriteOk = true →
      childFile sampleCfg "ReadMe.txt" ∈
        (save sampleCfg sampleEnvReadme (initialSaverState "old.jucer" [])).2.written ∧
      childFile sampleCfg "ReadMe.txt" ∉
        (save sampleCfg sampleEnvReadme (initialSaverState "old.jucer" [])).2.group) :=
  claim_C9_group_completeness_amended sampleCfg sampleEnvReadme "old.jucer" []
    rfl rfl rfl (by decide) rfl rfl (by simp [sampleEnvReadme])
    (by decide) (by decide) (by decide) (by decide) (by decide) (by decide)
    (by decide) (by decide) (by decide) (by decide) (by simp [sampleEnvReadme])

/-! ## Renderer lemmas (config header, C7 and C8) -/

theorem data_getElem?_append_left (a b : String) (i : Nat) (h : i < a.length) :
    (a ++ b).data[i]? = a.data[i]? := by
  rw [String.data_append]
  exact List.getElem?_append_left h

theorem data_getElem?_append_right (a b : String) (i : Nat) (h : a.length ≤ i) :
    (a ++ b).data[i]? = b.data[i - a.length]? := by
  rw [String.data_append]
  exact List.getElem?_append_right h

theorem flagLine_getElem (p : Project) (s : String) (i : Nat) (hi : i < 11) :
    (flagLine p s).data[i]? = "#define    ".data[i]? ∨
    (flagLine p s).data[i]? = "//#define  ".data[i]? := by
  rw [flagLine]
  have h11 : ("#define    " : String).length = 11 := by decide
  have h11b : ("//#define  " : String).length = 11 := by decide
  cases p.configFlag s with
  | enabled =>
      left
      rw [data_getElem?_append_left _ _ _ (by rw [String.length_append, h11]; omega)]
      rw [data_getElem?_append_left _ _ _ (by rw [h11]; omega)]
  | disabled =>
      left
      rw [data_getElem?_append_left _ _ _ (by rw [String.length_append, h11]; omega)]
      rw [data_getElem?_append_left _ _ _ (by rw [h11]; omega)]
  | unset =>
      right
      rw [data_getElem?_append_left _ _ _ (by rw [h11b]; omega)]

theorem flagLine_ne (p : Project) (s l : String) (i : Nat) (c : Option Char)
    (hi : i < 11) (hl : l.data[i]? = c)
    (h1 : "#define    ".data[i]? ≠ c) (h2 : "//#define  ".data[i]? ≠ c) :
    flagLine p s ≠ l := by
  intro he
  rcases flagLine_getElem p s i hi with h | h
  · rw [he, hl] at h
    exact h1 h.symm
  · rw [he, hl] at h
    exact h2 h.symm

theorem guard_data_head (u : String) :
    ("__JUCE_APPCONFIG_" ++ u ++ "__").data[0]? = some '_' := by
  have h17 : ("__JUCE_APPCONFIG_" : String).length = 17 := by decide
  rw [data_getElem?_append_left _ _ _ (by rw [String.length_append, h17]; omega)]
  rw [data_getElem?_append_left _ _ _ (by rw [h17]; omega)]
  decide

theorem flagLine_notin_preamble (p : Project) (s : String) :
    flagLine p s ∉ configPreambleLines p := by
  intro h
  simp only [configPreambleLines, autoGenWarningLines, List.cons_append,
    List.nil_append, List.mem_cons, List.not_mem_nil, or_false] at h
  rcases h with h | h | h | h | h | h | h | h | h | h | h | h | h | h | h | h
  · exact flagLine_ne p s _ 1 (some '*') (by omega) (by decide) (by decide) (by decide) h
  · exact flagLine_ne p s _ 0 none (by omega) (by decide) (by decide) (by decide) h
  · exact flagLine_ne p s _ 0 (some ' ') (by omega) (by decide) (by decide) (by decide) h
  · exact flagLine_ne p s _ 0 (some ' ') (by omega) (by decide) (by decide) (by decide) h
  · exact flagLine_ne p s _ 0 none (by omega) (by decide) (by decide) (by decide) h
  · exact flagLine_ne p s _ 0 (some ' ') (by omega) (by decide) (by decide) (by decide) h
  · exact flagLine_ne p s _ 0 (some ' ') (by omega) (by decide) (by decide) (by decide) h
  · exact flagLine_ne p s _ 0 none (by omega) (by decide) (by decide) (by decide) h
  · exact flagLine_ne p s _ 0 (some ' ') (by omega) (by decide) (by decide) (by decide) h
  · exact flagLine_ne p s _ 0 none (by omega) (by decide) (by decide) (by decide) h
  · exact flagLine_ne p s _ 0 (some '*') (by omega) (by decide) (by decide) (by decide) h
  · exact flagLine_ne p s _ 0 none (by omega) (by decide) (by decide) (by decide) h
  · refine flagLine_ne p s _ 1 (some 'i') (by omega) ?_ (by decide) (by decide) h
    rw [appConfigHeaderGuard]
    rw [data_getElem?_append_left _ _ _ (by decide)]
    decide
  · refine flagLine_ne p s _ 8 (some '_') (by omega) ?_ (by decide) (by decide) h
    rw [appConfigHeaderGuard]
    rw [data_getElem?_append_right _ _ _ (by decide)]
    exact guard_data_head _
  · exact flagLine_ne p s _ 0 none (by omega) (by decide) (by decide) (by decide) h
  · exact flagLine_ne p s _ 2 (some '=') (by omega) (by decide) (by decide) (by decide) h

theorem flagLine_ne_endif (p : Project) (s : String) :
    flagLine p s ≠ "#endif  // " ++ appConfigHeaderGuard p := by
  refine flagLine_ne p s _ 1 (some 'e') (by omega) ?_ (by decide) (by decide)
  rw [data_getElem?_append_left _ _ _ (by decide)]
  decide

theorem flagLine_ne_empty (p : Project) (s : String) :
    flagLine p s ≠ "" :=
  flagLine_ne p s _ 0 none (by omega) (by decide) (by decide) (by decide)

theorem flagLine_ne_avail (p : Project) (s : String) (L : Nat) (m : LibraryModule) :
    flagLine p s ≠ moduleAvailableLine L m := by
  have h30 : ("#define JUCE_MODULE_AVAILABLE_" : String).length = 30 := by decide
  refine flagLine_ne p s _ 8 (some 'J') (by omega) ?_ (by decide) (by decide)
  rw [moduleAvailableLine]
  rw [data_getElem?_append_left _ _ _
    (by rw [String.length_append, String.length_append, h30]; omega)]
  rw [data_getElem?_append_left _ _ _ (by rw [String.length_append, h30]; omega)]
  rw [data_getElem?_append_left _ _ _ (by rw [h30]; omega)]
  decide

theorem flagLine_ne_banner (p : Project) (s : String) :
    flagLine p s ≠
      bannerLine :=
  flagLine_ne p s _ 2 (some '=') (by omega) (by decide) (by decide) (by decide)

theorem flagLine_ne_flagsHeader (p : Project) (s : String) (m : LibraryModule) :
    flagLine p s ≠ "// " ++ m.id ++ " flags:" := by
  have h3 : ("// " : String).length = 3 := by decide
  refine flagLine_ne p s _ 2 (some ' ') (by omega) ?_ (by decide) (by decide)
  rw [data_getElem?_append_left _ _ _ (by rw [String.length_append, h3]; omega)]
  rw [data_getElem?_append_left _ _ _ (by rw [h3]; omega)]
  decide

theorem flagLine_inj (p : Project) : Function.Injective (flagLine p) := by
  intro a b he
  cases ha : p.configFlag a <;> cases hb : p.configFlag b <;>
    simp only [flagLine, ha, hb] at he
  · have hd := congrArg String.data he
    simp only [String.data_append, List.append_assoc] at hd
    have h2 := List.append_cancel_left hd
    exact String.ext (List.append_cancel_right h2)
  · have hd := congrArg (fun t : String => t.data.getLast?) he
    simp only [String.data_append, List.append_assoc, List.getLast?_append] at hd
    simp at hd
  · have hd := congrArg (fun t : String => t.data.head?) he
    simp only [String.data_append, List.append_assoc, List.head?_append] at hd
    simp at hd
  · have hd := congrArg (fun t : String => t.data.getLast?) he
    simp only [String.data_append, List.append_assoc, List.getLast?_append] at hd
    simp at hd
  · have hd := congrArg String.data he
    simp only [String.data_append, List.append_assoc] at hd
    have h2 := List.append_cancel_left hd
    exact String.ext (List.append_cancel_right h2)
  · have hd := congrArg (fun t : String => t.data.head?) he
    simp only [String.data_append, List.append_assoc, List.head?_append] at hd
    simp at hd
  · have hd := congrArg (fun t : String => t.data.head?) he
    simp only [String.data_append, List.append_assoc, List.head?_append] at hd
    simp at hd
  · have hd := congrArg (fun t : String => t.data.head?) he
    simp only [String.data_append, List.append_assoc, List.head?_append] at hd
    simp at hd
  · have hd := congrArg String.data he
    simp only [String.data_append] at hd
    exact String.ext (List.append_cancel_left hd)

theorem count_flagLine_block (p : Project) (m : LibraryModule) (b : Bool) (s : String) :
    (moduleFlagBlock p m b).count (flagLine p s) = m.configFlags.count s := by
  rw [moduleFlagBlock]
  by_cases hmt : m.configFlags.isEmpty
  · rw [if_pos hmt]
    rw [List.isEmpty_iff.mp hmt]
    rfl
  · rw [if_neg hmt]
    simp only [List.cons_append, List.singleton_append]
    rw [List.count_cons, List.count_cons, List.count_cons, List.count_append]
    have hb : (flagLine p s) ∉ (if b = true then ([] : List String) else [""]) := by
      split
      · simp
      · simp only [List.mem_singleton]
        exact flagLine_ne_empty p s
    have h1 : ((bannerLine : String)
        == flagLine p s) = false :=
      beq_eq_false_iff_ne.mpr (fun h => flagLine_ne_banner p s h.symm)
    have h2 : (("// " ++ m.id ++ " flags:") == flagLine p s) = false :=
      beq_eq_false_iff_ne.mpr (fun h => flagLine_ne_flagsHeader p s m h.symm)
    have h3 : (("" : String) == flagLine p s) = false :=
      beq_eq_false_iff_ne.mpr (fun h => flagLine_ne_empty p s h.symm)
    rw [List.count_eq_zero.mpr hb, h1, h2, h3]
    simp only [List.nil_append]
    rw [List.count_map_of_injective _ _ (flagLine_inj p) s]
    simp

theorem count_flagLine_blocks (p : Project) (modules : List LibraryModule) (s : String) :
    (configFlagBlocks p modules).count (flagLine p s)
      = (modules.flatMap LibraryModule.configFlags).count s := by
  rw [configFlagBlocks, List.count_flatten, List.map_map, List.flatMap_def,
    List.count_flatten, List.map_map]
  have hmap : List.map ((List.count (flagLine p s)) ∘
        fun jm : Nat × LibraryModule => moduleFlagBlock p jm.2 (jm.1 == modules.length - 1))
      modules.enum
      = List.map ((fun m => m.configFlags.count s) ∘ Prod.snd) modules.enum := by
    refine List.map_congr_left ?_
    intro a _
    exact count_flagLine_block p a.2 _ s
  rw [hmap]
  rw [← List.map_map, List.enum_map_snd]
  rfl

theorem count_flagLine_avail (p : Project) (s : String) (L : Nat)
    (modules : List LibraryModule) :
    (modules.map (moduleAvailableLine L)).count (flagLine p s) = 0 := by
  rw [List.count_eq_zero]
  intro h
  obtain ⟨m, _, hm⟩ := List.mem_map.mp h
  exact flagLine_ne_avail p s L m hm.symm

theorem repeatedString_length (n : Nat) : (repeatedString " " n).length = n := by
  induction n with
  | zero => rfl
  | succ n ih =>
      rw [repeatedString, String.length_append, ih]
      have h1 : (" " : String).length = 1 := by decide
      omega

theorem findLongest_ge (modules : List LibraryModule) (m : LibraryModule)
    (hm : m ∈ modules) : m.id.length ≤ findLongestModuleName modules := by
  induction modules with
  | nil => cases hm
  | cons a t ih =>
      rw [findLongestModuleName, List.foldr_cons]
      rcases List.mem_cons.mp hm with rfl | h
      · exact le_max_right _ _
      · exact le_trans (ih h) (le_max_left _ _)

/-- **C7**: the rendered configuration header contains exactly one line for
every configuration flag a module exposes — `#define` with value 1 when
enabled, value 0 when disabled, and the commented-out `//#define` form when
unset (the content of `flagLine`) — the lines of one module appear
consecutively in the module's declared flag order, and every
module-availability macro line is padded to the same total width,
37 + (longest module ID length). -/
theorem claim_C7_config_header_flags (p : Project) (modules : List LibraryModule)
    (extra : String)
    (hnd : (modules.flatMap LibraryModule.configFlags).Nodup)
    (hex : ∀ m ∈ modules, ∀ s ∈ m.configFlags,
      flagLine p s ∉ extraConfigLines extra) :
    (∀ m ∈ modules, ∀ s ∈ m.configFlags,
      (writeAppConfigLines p modules extra).count (flagLine p s) = 1) ∧
    (∀ m ∈ modules, ¬ m.configFlags.isEmpty = true →
      (m.configFlags.map (flagLine p)) <:+: writeAppConfigLines p modules extra) ∧
    (∀ m ∈ modules,
      (moduleAvailableLine (findLongestModuleName modules) m).length
        = 37 + findLongestModuleName modules) := by
  refine ⟨?_, ?_, ?_⟩
  · intro m hm s hs
    rw [writeAppConfigLines]
    simp only [List.count_append]
    rw [List.count_eq_zero.mpr (flagLine_notin_preamble p s)]
    rw [count_flagLine_avail p s _ modules]
    rw [List.count_eq_zero.mpr (show flagLine p s ∉ [""] by
      simp only [List.mem_singleton]; exact flagLine_ne_empty p s)]
    rw [count_flagLine_blocks p modules s]
    rw [List.count_eq_zero.mpr (hex m hm s hs)]
    rw [List.count_eq_zero.mpr (show flagLine p s ∉
        ["", "#endif  // " ++ appConfigHeaderGuard p] by
      simp only [List.mem_cons, List.mem_singleton, List.not_mem_nil, or_false]
      rintro (h | h)
      · exact flagLine_ne_empty p s h
      · exact flagLine_ne_endif p s h)]
    rw [List.count_eq_one_of_mem hnd (List.mem_flatMap.mpr ⟨m, hm, hs⟩)]
  · intro m hm hne
    obtain ⟨i, hlt, hget⟩ := List.getElem_of_mem hm
    have henum : (i, m) ∈ modules.enum :=
      List.mk_mem_enum_iff_getElem?.mpr
        (by rw [List.getElem?_eq_getElem hlt, hget])
    have hblock : moduleFlagBlock p m (i == modules.length - 1) ∈
        modules.enum.map
          (fun jm => moduleFlagBlock p jm.2 (jm.1 == modules.length - 1)) :=
      List.mem_map.mpr ⟨(i, m), henum, rfl⟩
    have h1 : (m.configFlags.map (flagLine p)) <:+:
        moduleFlagBlock p m (i == modules.length - 1) := by
      rw [moduleFlagBlock, if_neg hne]
      exact ⟨[bannerLine,
        "// " ++ m.id ++ " flags:", ""],
        (if (i == modules.length - 1) = true then [] else [""]), by simp⟩
    refine h1.trans ((List.infix_of_mem_flatten hblock).trans ?_)
    refine ⟨configPreambleLines p
        ++ modules.map (moduleAvailableLine (findLongestModuleName modules)) ++ [""],
      extraConfigLines extra ++ ["", "#endif  // " ++ appConfigHeaderGuard p], ?_⟩
    rw [writeAppConfigLines, configFlagBlocks]
    simp [List.append_assoc]
  · intro m hm
    have h30 : ("#define JUCE_MODULE_AVAILABLE_" : String).length = 30 := by decide
    have h2 : (" 1" : String).length = 2 := by decide
    have hle := findLongest_ge modules m hm
    rw [moduleAvailableLine, String.length_append, String.length_append,
      String.length_append, repeatedString_length, h30, h2]
    omega

/-- **C8**: both renderers are pure functions of the project fields they read
(unique ID, flag values, filenames, name/version constants), the module list
and the extra content: two projects agreeing on those — whatever their current
file location — produce byte-identical configuration-header and
umbrella-header text.  In particular two runs over an unmodified project are
byte-identical. -/
theorem claim_C8_renderer_determinism (p1 p2 : Project)
    (modules : List LibraryModule) (extra : String) (acEx bdEx : Bool)
    (huid : p1.projectUID = p2.projectUID)
    (hflag : p1.configFlag = p2.configFlag)
    (hacf : p1.appConfigFilename = p2.appConfigFilename)
    (hname : p1.projectName = p2.projectName)
    (hver : p1.version = p2.version)
    (hhex : p1.versionAsHex = p2.versionAsHex) :
    writeAppConfigText p1 modules extra = writeAppConfigText p2 modules extra ∧
    writeAppHeaderText p1 modules acEx bdEx = writeAppHeaderText p2 modules acEx bdEx := by
  cases p1
  cases p2
  dsimp only at huid hflag hacf hname hver hhex
  subst huid
  subst hflag
  subst hacf
  subst hname
  subst hver
  subst hhex
  exact ⟨rfl, rfl⟩

/-- Witness for C7: in the rendered header for the two sample modules, module
`juce_core`'s enabled flag renders as exactly one line and the availability
macro of `juce_core` is padded to column 37 + longest ID. -/
theorem claim_C7_config_header_flags_witness :
    (writeAppConfigLines sampleProjectA [sampleModuleCore, sampleModuleGui] "").count
        (flagLine sampleProjectA "JUCE_FLAG_A") = 1 ∧
    (moduleAvailableLine
        (findLongestModuleName [sampleModuleCore, sampleModuleGui])
        sampleModuleCore).length
      = 37 + findLongestModuleName [sampleModuleCore, sampleModuleGui] :=
  ⟨(claim_C7_config_header_flags sampleProjectA [sampleModuleCore, sampleModuleGui] ""
      (by decide)
      (by intro m _ s _; rw [extraConfigLines, if_pos (by decide)]; simp)).1
      sampleModuleCore (by simp) "JUCE_FLAG_A" (by simp [sampleModuleCore]),
   (claim_C7_config_header_flags sampleProjectA [sampleModuleCore, sampleModuleGui] ""
      (by decide)
      (by intro m _ s _; rw [extraConfigLines, if_pos (by decide)]; simp)).2.2
      sampleModuleCore (by simp)⟩

/-- Witness for C8: the two sample projects differ only in their current file
location and render byte-identical headers. -/
theorem claim_C8_renderer_determinism_witness :
    writeAppConfigText sampleProjectA [sampleModuleCore, sampleModuleGui] ""
      = writeAppConfigText sampleProjectB [sampleModuleCore, sampleModuleGui] "" ∧
    writeAppHeaderText sampleProjectA [sampleModuleCore, sampleModuleGui] true true
      = writeAppHeaderText sampleProjectB [sampleModuleCore, sampleModuleGui] true true :=
  claim_C8_renderer_determinism sampleProjectA sampleProjectB
    [sampleModuleCore, sampleModuleGui] "" true true rfl rfl rfl rfl rfl rfl
